import Mathlib

/-!
# Portfolio contact pipeline

A shallow embedding of the contact-submission path of the portfolio site:
the server route `POST /api/contact` of `server.js` (rate limiter, validation,
mail dispatch, error boundary) and the submit handler of the contact form in
`script.js`.

JavaScript strings are sequences of UTF-16 code units; `length` counts code
units and a regular expression without the `u` flag matches code units.  The
fields of a request body are taken to have the shape of the data model, a
string or absent.
-/

namespace Portfolio

/-! ## JavaScript strings -/

/-- A UTF-16 code unit, the element of a JavaScript string. -/
abbrev CodeUnit := Fin 65536

/-- A JavaScript string value. -/
abbrev JSString := List CodeUnit

/-- The code unit with the given number. -/
def codeUnit (n : Nat) : CodeUnit := ⟨n % 65536, Nat.mod_lt n (by decide)⟩

/-- UTF-16 encoding of one Unicode scalar value: one unit for the basic plane,
a surrogate pair above it. -/
def utf16Char (c : Char) : JSString :=
  if c.toNat < 65536 then [codeUnit c.toNat]
  else [codeUnit (55296 + (c.toNat - 65536) / 1024), codeUnit (56320 + (c.toNat - 65536) % 1024)]

/-- The JavaScript string denoted by a literal. -/
def utf16 (s : String) : JSString := s.toList.flatMap utf16Char

/-- The class `\s` of a JavaScript regular expression: the WhiteSpace and
LineTerminator code points of ECMAScript. -/
def isWhiteSpace (c : CodeUnit) : Bool :=
  c.val == 9 || c.val == 10 || c.val == 11 || c.val == 12 || c.val == 13 || c.val == 32 ||
  c.val == 160 || c.val == 5760 || (decide (8192 ≤ c.val) && decide (c.val ≤ 8202)) ||
  c.val == 8232 || c.val == 8233 || c.val == 8239 || c.val == 8287 || c.val == 12288 ||
  c.val == 65279

/-! ## Regular expressions

The fragment used by the source: a pattern `^ i₁ i₂ … iₙ $` whose items are a
single character class or a character class under `+`. -/

/-- One item of a pattern. -/
inductive RegexItem where
  | one (cls : CodeUnit → Bool)
  | oneOrMore (cls : CodeUnit → Bool)

/-- Backtracking match of the items against the whole remaining input: the
pattern is anchored by `^` and `$`, and `+` is tried greedily first. -/
def matchItems : List RegexItem → JSString → Bool
  | [], [] => true
  | [], _ :: _ => false
  | _ :: _, [] => false
  | RegexItem.one cls :: rest, c :: s => cls c && matchItems rest s
  | RegexItem.oneOrMore cls :: rest, c :: s =>
      cls c && (matchItems (RegexItem.oneOrMore cls :: rest) s || matchItems rest s)

/-- The class `[^\s@]`. -/
def notSpaceNorAt (c : CodeUnit) : Bool := !(isWhiteSpace c || c.val == 64)

/-- The literal `@`. -/
def isAt (c : CodeUnit) : Bool := c.val == 64

/-- The literal `\.`. -/
def isDot (c : CodeUnit) : Bool := c.val == 46

/-- The pattern `/^[^\s@]+@[^\s@]+\.[^\s@]+$/` of `server.js` line 75 and of
`isValidEmail` in `script.js`. -/
def emailRegex : List RegexItem :=
  [RegexItem.oneOrMore notSpaceNorAt, RegexItem.one isAt, RegexItem.oneOrMore notSpaceNorAt,
   RegexItem.one isDot, RegexItem.oneOrMore notSpaceNorAt]

/-- The method `RegExp.prototype.test` on an anchored pattern. -/
def regexTest (re : List RegexItem) (s : JSString) : Bool := matchItems re s

/-- The function `isValidEmail` of `script.js`. -/
def isValidEmail (email : JSString) : Bool := regexTest emailRegex email


/-! ## Server: data model -/

/-- The body of a request to `POST /api/contact` after JSON parsing, when each
of the four fields is a string or absent (`undefined`); `JsonBody` below is
the body with fields of any JSON type. -/
structure ContactBody where
  name : Option JSString
  email : Option JSString
  subject : Option JSString
  message : Option JSString

/-- JavaScript `!v` for a value that is a string or `undefined`. -/
def falsy : Option JSString → Bool
  | none => true
  | some s => s.isEmpty

/-- The JSON bodies the server sends. -/
inductive ResponseBody where
  | error (error : String)
  | success (message : String)
  | health (status : String) (timestamp : String) (service : String)
  deriving DecidableEq, Repr

/-- An HTTP response: `res.status(status).json(body)`. -/
structure Response where
  status : Nat
  body : ResponseBody
  deriving DecidableEq, Repr

/-- The property `ok` of a fetch response: status in the range 200-299. -/
def Response.ok (r : Response) : Bool := decide (200 ≤ r.status) && decide (r.status ≤ 299)

/-- A thrown JavaScript value or a promise rejection reason. -/
structure JSError where
  name : String
  message : String
  deriving DecidableEq, Repr

/-- The variables of `process.env` read by the contact route. -/
structure ProcessEnv where
  EMAIL_SERVICE : Option JSString
  EMAIL_USER : Option JSString
  EMAIL_PASS : Option JSString

/-- The argument object of `nodemailer.createTransporter`. -/
structure TransportOptions where
  service : JSString
  authUser : Option JSString
  authPass : Option JSString
  deriving DecidableEq

/-- A message object handed to `sendMail`; `fromAddr` and `toAddr` are the
fields `from` and `to`. -/
structure Mail where
  fromAddr : Option JSString
  toAddr : Option JSString
  replyTo : Option JSString
  subject : JSString
  html : JSString
  text : JSString
  deriving DecidableEq

/-- A transporter object: the result of the call `sendMail(mail)` that is the
`n`-th call made on it (counted from 0), resolved or rejected. -/
structure Transporter where
  sendMail : Nat → Mail → Except JSError Unit

/-- The `nodemailer` module as the route uses it: the call
`nodemailer.createTransporter(options)` returns a transporter or throws. -/
structure Nodemailer where
  createTransporter : TransportOptions → Except JSError Transporter

/-- The effects of a run of the handler that leave the process. -/
inductive Event where
  | createTransporter (options : TransportOptions)
  | sendMail (mail : Mail)
  | consoleError (label : String) (error : JSError)
  deriving DecidableEq

/-- JavaScript `a || b` for a string or `undefined` on the left. -/
def orElse (a : Option JSString) (b : JSString) : JSString :=
  match a with
  | none => b
  | some s => if s.isEmpty then b else s

/-- The call `message.replace(/\n/g, '<br>')`. -/
def replaceNewlines (message : JSString) : JSString :=
  message.flatMap (fun c => if c.val == 10 then utf16 "<br>" else [c])

/-! ## Server: mail content -/

/-- The template literal `html` of `mailOptions`, `server.js` lines 91-108. -/
def mailOptionsHtml (name email subject message : JSString) : JSString :=
  utf16 "\n" ++
  utf16 "                <div style=\"font-family: Arial, sans-serif; max-width: 600px; margin: 0 auto;\">\n" ++
  utf16 "                    <h2 style=\"color: #333;\">New Contact Form Submission</h2>\n" ++
  utf16 "                    <div style=\"background: #f5f5f5; padding: 20px; border-radius: 8px; margin: 20px 0;\">\n" ++
  utf16 "                        <h3 style=\"color: #555; margin-top: 0;\">Contact Details:</h3>\n" ++
  utf16 "                        <p><strong>Name:</strong> " ++
  name ++
  utf16 "</p>\n" ++
  utf16 "                        <p><strong>Email:</strong> " ++
  email ++
  utf16 "</p>\n" ++
  utf16 "                        <p><strong>Subject:</strong> " ++
  subject ++
  utf16 "</p>\n" ++
  utf16 "                        <p><strong>Message:</strong></p>\n" ++
  utf16 "                        <div style=\"background: white; padding: 15px; border-radius: 5px; border-left: 4px solid #007bff;\">\n" ++
  utf16 "                            " ++
  replaceNewlines message ++
  utf16 "\n" ++
  utf16 "                        </div>\n" ++
  utf16 "                    </div>\n" ++
  utf16 "                    <p style=\"color: #666; font-size: 14px;\">\n" ++
  utf16 "                        This message was sent from your portfolio website contact form.\n" ++
  utf16 "                    </p>\n" ++
  utf16 "                </div>\n" ++
  utf16 "            "

/-- The template literal `text` of `mailOptions`, `server.js` lines 109-121. -/
def mailOptionsText (name email subject message : JSString) : JSString :=
  utf16 "\n" ++
  utf16 "New Contact Form Submission\n" ++
  utf16 "\n" ++
  utf16 "Contact Details:\n" ++
  utf16 "Name: " ++
  name ++
  utf16 "\n" ++
  utf16 "Email: " ++
  email ++
  utf16 "\n" ++
  utf16 "Subject: " ++
  subject ++
  utf16 "\n" ++
  utf16 "\n" ++
  utf16 "Message:\n" ++
  message ++
  utf16 "\n" ++
  utf16 "\n" ++
  utf16 "This message was sent from your portfolio website contact form.\n" ++
  utf16 "            "

/-- The template literal `html` of `userMailOptions`, `server.js` lines 132-147. -/
def userMailOptionsHtml (name subject message : JSString) : JSString :=
  utf16 "\n" ++
  utf16 "                <div style=\"font-family: Arial, sans-serif; max-width: 600px; margin: 0 auto;\">\n" ++
  utf16 "                    <h2 style=\"color: #333;\">Thank you for reaching out!</h2>\n" ++
  utf16 "                    <p>Hi " ++
  name ++
  utf16 ",</p>\n" ++
  utf16 "                    <p>Thank you for contacting me through my portfolio website. I have received your message and will get back to you as soon as possible.</p>\n" ++
  utf16 "                    <div style=\"background: #f5f5f5; padding: 20px; border-radius: 8px; margin: 20px 0;\">\n" ++
  utf16 "                        <h3 style=\"color: #555; margin-top: 0;\">Your Message:</h3>\n" ++
  utf16 "                        <p><strong>Subject:</strong> " ++
  subject ++
  utf16 "</p>\n" ++
  utf16 "                        <p><strong>Message:</strong></p>\n" ++
  utf16 "                        <div style=\"background: white; padding: 15px; border-radius: 5px; border-left: 4px solid #007bff;\">\n" ++
  utf16 "                            " ++
  replaceNewlines message ++
  utf16 "\n" ++
  utf16 "                        </div>\n" ++
  utf16 "                    </div>\n" ++
  utf16 "                    <p>Best regards,<br>Aman Gupta</p>\n" ++
  utf16 "                </div>\n" ++
  utf16 "            "

/-- The template literal `text` of `userMailOptions`, `server.js` lines 148-161. -/
def userMailOptionsText (name subject message : JSString) : JSString :=
  utf16 "\n" ++
  utf16 "Thank you for reaching out!\n" ++
  utf16 "\n" ++
  utf16 "Hi " ++
  name ++
  utf16 ",\n" ++
  utf16 "\n" ++
  utf16 "Thank you for contacting me through my portfolio website. I have received your message and will get back to you as soon as possible.\n" ++
  utf16 "\n" ++
  utf16 "Your Message:\n" ++
  utf16 "Subject: " ++
  subject ++
  utf16 "\n" ++
  utf16 "Message: " ++
  message ++
  utf16 "\n" ++
  utf16 "\n" ++
  utf16 "Best regards,\n" ++
  utf16 "Aman Gupta\n" ++
  utf16 "            "


/-! ## Server: the contact route -/

/-- The options object built by `createTransporter`, `server.js` lines 36-40. -/
def transportOptions (env : ProcessEnv) : TransportOptions :=
  ⟨orElse env.EMAIL_SERVICE (utf16 "gmail"), env.EMAIL_USER, env.EMAIL_PASS⟩

/-- The function `createTransporter` of `server.js` lines 34-42. -/
def createTransporter (env : ProcessEnv) (nodemailer : Nodemailer) : Except JSError Transporter :=
  nodemailer.createTransporter (transportOptions env)

/-- The object `mailOptions` of `server.js` lines 86-122. -/
def mailOptions (env : ProcessEnv) (name email subject message : JSString) : Mail :=
  ⟨env.EMAIL_USER, env.EMAIL_USER, some email, utf16 "Portfolio Contact: " ++ subject,
    mailOptionsHtml name email subject message, mailOptionsText name email subject message⟩

/-- The object `userMailOptions` of `server.js` lines 128-162. -/
def userMailOptions (env : ProcessEnv) (name email subject message : JSString) : Mail :=
  ⟨env.EMAIL_USER, some email, none, utf16 "Thank you for contacting me!",
    userMailOptionsHtml name subject message, userMailOptionsText name subject message⟩

/-- The response and the effects of one run of a handler. -/
structure Outcome where
  response : Response
  trace : List Event

/-- The exception of destructuring `req.body` when it is `undefined`. -/
def destructureError : JSError := ⟨"TypeError", "Cannot destructure property of req.body"⟩

/-- The return `res.status(400).json(\x7b error \x7d)` of a validation rule. -/
def badRequest (error : String) : List Event × Except JSError Response :=
  ([], Except.ok ⟨400, ResponseBody.error error⟩)

/-- The `try` block of the handler of `POST /api/contact`, `server.js` lines
46-169: the effects performed, and the response sent or the exception thrown.
The body is `none` when `req.body` is `undefined`. -/
def contactTry (env : ProcessEnv) (nodemailer : Nodemailer) (body : Option ContactBody) :
    List Event × Except JSError Response :=
  match body with
  | none => ([], Except.error destructureError)
  | some b =>
    match b.name, b.email, b.subject, b.message with
    | some name, some email, some subject, some message =>
      if name.isEmpty || email.isEmpty || subject.isEmpty || message.isEmpty then
        badRequest "All fields are required"
      else if name.length < 2 then
        badRequest "Name must be at least 2 characters long"
      else if subject.length < 5 then
        badRequest "Subject must be at least 5 characters long"
      else if message.length < 10 then
        badRequest "Message must be at least 10 characters long"
      else if !regexTest emailRegex email then
        badRequest "Please enter a valid email address"
      else
        match createTransporter env nodemailer with
        | Except.error e => ([Event.createTransporter (transportOptions env)], Except.error e)
        | Except.ok transporter =>
          match transporter.sendMail 0 (mailOptions env name email subject message) with
          | Except.error e =>
            ([Event.createTransporter (transportOptions env),
              Event.sendMail (mailOptions env name email subject message)], Except.error e)
          | Except.ok _ =>
            match transporter.sendMail 1 (userMailOptions env name email subject message) with
            | Except.error e =>
              ([Event.createTransporter (transportOptions env),
                Event.sendMail (mailOptions env name email subject message),
                Event.sendMail (userMailOptions env name email subject message)], Except.error e)
            | Except.ok _ =>
              ([Event.createTransporter (transportOptions env),
                Event.sendMail (mailOptions env name email subject message),
                Event.sendMail (userMailOptions env name email subject message)],
               Except.ok ⟨200, ResponseBody.success
                 "Message sent successfully! I\x27ll get back to you soon."⟩)
    | _, _, _, _ => badRequest "All fields are required"

/-- The response of the `catch` block, `server.js` lines 173-175. -/
def failureResponse : Response :=
  ⟨500, ResponseBody.error "Failed to send message. Please try again or contact me directly."⟩

/-- The handler of `POST /api/contact`, `server.js` lines 45-177: the `try`
block, and the `catch` block that logs the exception and answers 500. -/
def contactHandler (env : ProcessEnv) (nodemailer : Nodemailer) (body : Option ContactBody) :
    Outcome :=
  match contactTry env nodemailer body with
  | (trace, Except.ok response) => ⟨response, trace⟩
  | (trace, Except.error e) =>
    ⟨failureResponse, trace ++ [Event.consoleError "Contact form error:" e]⟩

/-! ## Server: the rate limiter -/

/-- The entry of one client identifier in the limiter's table. -/
structure RateLimitWindow where
  count : Nat
  windowStart : Nat
  deriving DecidableEq, Repr

/-- The limiter's table, keyed by client identifier. -/
abbrev RateLimitTable := String → Option RateLimitWindow

/-- The options of `rateLimit` that decide admission and the rejection body. -/
structure RateLimitOptions where
  windowMs : Nat
  max : Nat
  message : ResponseBody

/-- The options of `contactLimiter`, `server.js` lines 23-31. -/
def contactLimiterOptions : RateLimitOptions :=
  ⟨15 * 60 * 1000, 5,
    ResponseBody.error "Too many contact form submissions, please try again later."⟩

/-- Modelled from the spec: the middleware returned by `rateLimit(options)`
of the package express-rate-limit, whose code is not part of the repository.
Given a client identifier and the current time it counts the request in the
identifier's window and admits it when the count stays within `max`; a window
lasts `windowMs` and a request that finds none running opens a new one.  The
spec does not say at which instant a window opened by a request at time `now`
starts; `opensAt now` is that instant. -/
def rateLimit (options : RateLimitOptions) (opensAt : Nat → Nat) (table : RateLimitTable)
    (identifier : String) (now : Nat) : RateLimitTable × Bool :=
  let w : RateLimitWindow :=
    match table identifier with
    | some w =>
      if now < w.windowStart + options.windowMs then ⟨w.count + 1, w.windowStart⟩
      else ⟨1, opensAt now⟩
    | none => ⟨1, opensAt now⟩
  (Function.update table identifier (some w), decide (w.count ≤ options.max))

/-- A window starts with the request that opens it, as in the memory store of
the express-rate-limit package. -/
def opensAtRequest (now : Nat) : Nat := now

/-- Windows as the consecutive intervals of length `windowMs` from time 0: a
reading of the fixed window of the spec that the package does not implement,
kept for comparison. -/
def opensAligned (windowMs : Nat) (now : Nat) : Nat := now - now % windowMs

/-- The number of requests counted for an identifier in the window running at
time `now`. -/
def currentCount (options : RateLimitOptions) (table : RateLimitTable) (identifier : String)
    (now : Nat) : Nat :=
  match table identifier with
  | some w => if now < w.windowStart + options.windowMs then w.count else 0
  | none => 0

/-- A request to `POST /api/contact` as it arrives: the client identifier, the
time in milliseconds, the parsed body, and the behaviour of the mail library
while the request is handled. -/
structure Arrival where
  ip : String
  now : Nat
  body : Option ContactBody
  nodemailer : Nodemailer

/-- The response of the limiter to a request it rejects. -/
def tooManyRequests : Outcome := ⟨⟨429, contactLimiterOptions.message⟩, []⟩

/-- The route `app.post('/api/contact', contactLimiter, handler)`, `server.js`
line 45: the limiter runs first and passes the request on only when it admits
it. -/
def contactRoute (opensAt : Nat → Nat) (env : ProcessEnv) (table : RateLimitTable)
    (a : Arrival) : RateLimitTable × Outcome :=
  ((rateLimit contactLimiterOptions opensAt table a.ip a.now).1,
    if (rateLimit contactLimiterOptions opensAt table a.ip a.now).2 then
      contactHandler env a.nodemailer a.body
    else tooManyRequests)

/-- The server handling a sequence of requests to the contact route. -/
def serve (opensAt : Nat → Nat) (env : ProcessEnv) :
    RateLimitTable → List Arrival → List Outcome
  | _, [] => []
  | table, a :: rest =>
    (contactRoute opensAt env table a).2 :: serve opensAt env (contactRoute opensAt env table a).1 rest

/-- The table after a sequence of requests. -/
def tableAfter (opensAt : Nat → Nat) (env : ProcessEnv) :
    RateLimitTable → List Arrival → RateLimitTable
  | table, [] => table
  | table, a :: rest => tableAfter opensAt env (contactRoute opensAt env table a).1 rest

/-- The table of a server that has not yet seen a request. -/
def emptyTable : RateLimitTable := fun _ => none

/-! ## The validator as the specification lists it -/

/-- The length of a field, 0 when it is absent. -/
def fieldLength (v : Option JSString) : Nat :=
  match v with
  | none => 0
  | some s => s.length

/-- Rule (1): all four fields present and non-empty. -/
def ruleAllPresent (b : ContactBody) : Bool :=
  !falsy b.name && !falsy b.email && !falsy b.subject && !falsy b.message

/-- Rule (2): name length at least 2. -/
def ruleName (b : ContactBody) : Bool := decide (2 ≤ fieldLength b.name)

/-- Rule (3): subject length at least 5. -/
def ruleSubject (b : ContactBody) : Bool := decide (5 ≤ fieldLength b.subject)

/-- Rule (4): message length at least 10. -/
def ruleMessage (b : ContactBody) : Bool := decide (10 ≤ fieldLength b.message)

/-- Rule (5): the email matches the pattern. -/
def ruleEmail (b : ContactBody) : Bool :=
  match b.email with
  | none => false
  | some email => isValidEmail email

/-- The rules of section 4.1 in evaluation order, each with the message of
its violation. -/
def specRules : List ((ContactBody → Bool) × String) :=
  [(ruleAllPresent, "All fields are required"),
   (ruleName, "Name must be at least 2 characters long"),
   (ruleSubject, "Subject must be at least 5 characters long"),
   (ruleMessage, "Message must be at least 10 characters long"),
   (ruleEmail, "Please enter a valid email address")]

/-- The message of the first rule of the list that the body violates. -/
def firstFailure (rules : List ((ContactBody → Bool) × String)) (b : ContactBody) :
    Option String :=
  (rules.find? (fun r => !r.1 b)).map (fun r => r.2)

/-- The server accepts a body when no rule fails. -/
def serverAccepts (b : ContactBody) : Bool := (firstFailure specRules b).isNone

/-- The object `invalidContactData` of `test-backend.js` lines 47-52. -/
def invalidContactData : ContactBody :=
  ⟨some (utf16 "T"), some (utf16 "invalid-email"), some (utf16 "Hi"), some (utf16 "Hi")⟩

/-- The object `validContactData` of `test-backend.js` lines 22-27. -/
def validContactData : ContactBody :=
  ⟨some (utf16 "Test User"), some (utf16 "test@example.com"), some (utf16 "Test Message"),
    some (utf16 "This is a test message to verify the backend is working correctly.")⟩

/-- A stand-in for the mail library in which the factory the code calls exists
and every call succeeds. -/
def workingMailer : Nodemailer := ⟨fun _ => Except.ok ⟨fun _ _ => Except.ok ()⟩⟩

/-- A process environment with the owner mailbox configured. -/
def sampleEnv : ProcessEnv :=
  ⟨none, some (utf16 "owner@example.com"), some (utf16 "secret")⟩

/-- The conditions of a submission that must not be dispatched: a field is
missing, the name, subject or message is too short, or the email has no `@` or
no `.`. -/
def Rejectable (b : ContactBody) : Prop :=
  b.name = none ∨ b.email = none ∨ b.subject = none ∨ b.message = none ∨
    fieldLength b.name < 2 ∨ fieldLength b.subject < 5 ∨ fieldLength b.message < 10 ∨
    ∃ email, b.email = some email ∧ (codeUnit 64 ∉ email ∨ codeUnit 46 ∉ email)

/-- The same transporter with every rejection reason replaced. -/
def Transporter.mapError (f : JSError → JSError) (t : Transporter) : Transporter :=
  ⟨fun n mail => match t.sendMail n mail with
    | Except.error e => Except.error (f e)
    | Except.ok u => Except.ok u⟩

/-- The same mail library with every exception it raises replaced. -/
def Nodemailer.mapError (f : JSError → JSError) (nodemailer : Nodemailer) : Nodemailer :=
  ⟨fun options => match nodemailer.createTransporter options with
    | Except.error e => Except.error (f e)
    | Except.ok t => Except.ok (t.mapError f)⟩

/-- The messages handed to `sendMail` in a run, in order. -/
def mailsSent (trace : List Event) : List Mail :=
  trace.filterMap (fun ev => match ev with
    | Event.sendMail mail => some mail
    | _ => none)

/-- A rejection reason of the mail provider. -/
def providerError : JSError := ⟨"Error", "Invalid login"⟩

/-- A mail library whose transporter rejects the first send. -/
def rejectingMailer : Nodemailer :=
  ⟨fun _ => Except.ok ⟨fun n _ => if n = 0 then Except.error providerError else Except.ok ()⟩⟩

/-- The nodemailer package as published: it exports `createTransport` and no
`createTransporter`, so the call `nodemailer.createTransporter(...)` of
`server.js` line 35 throws this `TypeError`. -/
def throwingMailer : Nodemailer :=
  ⟨fun _ => Except.error ⟨"TypeError", "nodemailer.createTransporter is not a function"⟩⟩

/-- The identifier has no window running at time `now`: no entry, or one whose
window has elapsed. -/
def NoRunningWindow (options : RateLimitOptions) (table : RateLimitTable) (identifier : String)
    (now : Nat) : Prop :=
  ∀ w, table identifier = some w → w.windowStart + options.windowMs ≤ now

/-- The number of requests of the identifier among the first `i` arrivals. -/
def requestsBefore (identifier : String) (arrivals : List Arrival) (i : Nat) : Nat :=
  (arrivals.take i).countP (fun a => decide (a.ip = identifier))

/-- A request of the client with the given body at the given time, the mail
library working. -/
def requestAt (ip : String) (body : ContactBody) (now : Nat) : Arrival :=
  ⟨ip, now, some body, workingMailer⟩

/-- The six posts of `validContactData` of the rate-limit test,
`test-backend.js` lines 72-83, sent by one client at times 0 to 5. -/
def sixRequests : List Arrival :=
  (List.range 6).map (requestAt "203.0.113.7" validContactData)

/-- Five posts of `invalidContactData` followed by five of `validContactData`,
all by one client within ten milliseconds. -/
def fiveInvalidThenFiveValid : List Arrival :=
  (List.range 5).map (requestAt "203.0.113.7" invalidContactData) ++
    (List.range 5).map (fun n => requestAt "203.0.113.7" validContactData (5 + n))

/-! ## Client: the contact form of `script.js` -/

/-- The properties of the submit button that the handler reads and writes. -/
structure SubmitButton where
  innerHTML : JSString
  disabled : Bool
  deriving DecidableEq

/-- The value of `await response.json()`: `null`, or a value of which the
handler reads the truthiness of `success` and the properties `message` and
`error` (all absent on a primitive). -/
inductive JsonResult where
  | null
  | value (success : Bool) (message : Option JSString) (error : Option JSString)

/-- The outcome of the network call: the `fetch` promise rejects, or it
resolves to a response with its `ok` flag and a body that parses as JSON or
makes `response.json()` reject. -/
inductive FetchResult where
  | rejected (error : JSError)
  | response (ok : Bool) (json : Except JSError JsonResult)

/-- The effects of a run of the submit handler, in order. -/
inductive ClientEvent where
  | showNotification (message : Option JSString) (type : String)
  | setInnerHTML (html : JSString)
  | setDisabled (disabled : Bool)
  | fetch (body : ContactBody)
  | formReset
  | clearValidationClasses
  | consoleError (label : String) (error : JSError)

/-- The "simple validation" of the submit handler, `script.js` lines 217-226:
the notification shown when it stops the submission, `none` when it lets the
submission through.  The form data has the shape of the request body, a field
being `none` when `formData.get` returns `null`. -/
def clientValidation (form : ContactBody) : Option JSString :=
  match form.name, form.email, form.subject, form.message with
  | some name, some email, some subject, some message =>
    if name.isEmpty || email.isEmpty || subject.isEmpty || message.isEmpty then
      some (utf16 "Please fill in all fields")
    else if !isValidEmail email then
      some (utf16 "Please enter a valid email address")
    else none
  | _, _, _, _ => some (utf16 "Please fill in all fields")

/-- The client lets the submission through to the network call. -/
def clientAccepts (form : ContactBody) : Bool := (clientValidation form).isNone

/-- The exception of reading a property of `null`. -/
def nullPropertyError : JSError := ⟨"TypeError", "Cannot read properties of null"⟩

/-- The `try` block of the submit handler after the request is sent,
`script.js` lines 243-260: the effects, and the exception thrown if any. -/
def submitTry (network : FetchResult) : List ClientEvent × Option JSError :=
  match network with
  | FetchResult.rejected e => ([], some e)
  | FetchResult.response _ (Except.error e) => ([], some e)
  | FetchResult.response _ (Except.ok JsonResult.null) => ([], some nullPropertyError)
  | FetchResult.response ok (Except.ok (JsonResult.value success message error)) =>
    if ok && success then
      ([ClientEvent.showNotification message "success", ClientEvent.formReset,
        ClientEvent.clearValidationClasses], none)
    else
      ([ClientEvent.showNotification
          (some (orElse error (utf16 "Failed to send message. Please try again."))) "error"],
        none)

/-- The `catch` block of the submit handler, `script.js` lines 261-263. -/
def submitCatch (e : JSError) : List ClientEvent :=
  [ClientEvent.consoleError "Form submission error:" e,
   ClientEvent.showNotification
     (some (utf16 "Network error. Please check your connection and try again.")) "error"]

/-- The submit handler of the contact form, `script.js` lines 206-268, for a
form that has a submit button: validation, loading state, the network call in
`try`, `catch`, and the `finally` block that resets the button. -/
def submitHandler (form : ContactBody) (button : SubmitButton) (network : FetchResult) :
    List ClientEvent :=
  match clientValidation form with
  | some notice => [ClientEvent.showNotification (some notice) "error"]
  | none =>
    [ClientEvent.setInnerHTML (utf16 "<i class=\"fas fa-spinner fa-spin\"></i> Sending..."),
     ClientEvent.setDisabled true,
     ClientEvent.fetch form] ++
    (match submitTry network with
      | (log, none) => log
      | (log, some e) => log ++ submitCatch e) ++
    [ClientEvent.setInnerHTML button.innerHTML, ClientEvent.setDisabled false]

/-- The button after one effect. -/
def buttonStep (button : SubmitButton) (ev : ClientEvent) : SubmitButton :=
  match ev with
  | ClientEvent.setInnerHTML html => ⟨html, button.disabled⟩
  | ClientEvent.setDisabled d => ⟨button.innerHTML, d⟩
  | _ => button

/-- The button after a run. -/
def buttonAfter (button : SubmitButton) (log : List ClientEvent) : SubmitButton :=
  log.foldl buttonStep button

/-- The effect writes to the button. -/
def writesButton (ev : ClientEvent) : Bool :=
  match ev with
  | ClientEvent.setInnerHTML _ => true
  | ClientEvent.setDisabled _ => true
  | _ => false

/-- The effect is the network call. -/
def isFetch (ev : ClientEvent) : Bool :=
  match ev with
  | ClientEvent.fetch _ => true
  | _ => false

/-- A run of non-whitespace characters, as the specification words the email
shape. -/
def IsNonSpaceRun (a : JSString) : Prop := a ≠ [] ∧ ∀ c ∈ a, isWhiteSpace c = false

/-- A run of characters each of which is neither whitespace nor `@`, non-empty. -/
def IsLabel (a : JSString) : Prop := a ≠ [] ∧ ∀ c ∈ a, notSpaceNorAt c = true

/-- The string splits as label, `@`, label, `.`, label. -/
def EmailShape (email : JSString) : Prop :=
  ∃ a b c, email = a ++ codeUnit 64 :: (b ++ codeUnit 46 :: c) ∧
    IsLabel a ∧ IsLabel b ∧ IsLabel c

/-- A submission with a well-formed email and fields that are too short. -/
def shortContactData : ContactBody :=
  ⟨some (utf16 "T"), some (utf16 "test@example.com"), some (utf16 "Hi"), some (utf16 "Hi")⟩

/-- The button of the contact form before a submission. -/
def sampleButton : SubmitButton := ⟨utf16 "Send Message", false⟩

/-- The valid submission of the backend test with the email `a@b@c.d`. -/
def twoAtContactData : ContactBody :=
  ⟨some (utf16 "Test User"), some (utf16 "a@b@c.d"), some (utf16 "Test Message"),
    some (utf16 "This is a test message to verify the backend is working correctly.")⟩

/-! ## Server: the application -/

/-- An HTTP request as the application receives it: method, path, client
identifier, time of arrival in milliseconds since the epoch, the value of
`req.body` once the body parsers have run, and the behaviour of the mail
library while the request is handled. -/
structure HttpRequest where
  method : String
  path : String
  ip : String
  now : Nat
  body : Option ContactBody
  nodemailer : Nodemailer

/-- What a middleware of a package does with a request: it passes the request
on with `next()`, ends it with a response of its own, or raises an error. -/
inductive MiddlewareResult where
  | next
  | respond (status : Nat) (content : JSString)
  | fail (error : JSError)

/-- The packages the application is assembled from, `server.js` lines 1-20
and 189, as far as they decide the reply: the four middleware registered
before the routes, the middleware of `express.static('.')`, and the test by
which Express decides that a request matches a route registered for a method
and a path. -/
structure Express where
  helmet : HttpRequest → MiddlewareResult
  cors : HttpRequest → MiddlewareResult
  json : HttpRequest → MiddlewareResult
  urlencoded : HttpRequest → MiddlewareResult
  static : HttpRequest → MiddlewareResult
  routeMatches : String → String → HttpRequest → Bool

/-- The reply to a request: JSON sent by the code of `server.js`, or what a
package middleware sent. -/
inductive Reply where
  | json (response : Response)
  | sent (status : Nat) (content : JSString)
  deriving DecidableEq

/-- The reply, the effects and the limiter's table after one request. -/
structure AppOutcome where
  reply : Reply
  trace : List Event
  table : RateLimitTable

/-- Middleware registered with `app.use` run in order until one does not call
`next()`. -/
def runMiddleware : List (HttpRequest → MiddlewareResult) → HttpRequest → MiddlewareResult
  | [], _ => MiddlewareResult.next
  | m :: rest, req =>
    match m req with
    | MiddlewareResult.next => runMiddleware rest req
    | MiddlewareResult.respond status content => MiddlewareResult.respond status content
    | MiddlewareResult.fail e => MiddlewareResult.fail e

/-- The error-handling middleware, `server.js` lines 199-204. -/
def errorHandler (table : RateLimitTable) (e : JSError) : AppOutcome :=
  ⟨Reply.json ⟨500, ResponseBody.error "Internal server error"⟩,
    [Event.consoleError "Server error:" e], table⟩

/-- The response of the 404 handler, `server.js` lines 192-196. -/
def notFound : Response := ⟨404, ResponseBody.error "Endpoint not found"⟩

/-- The decimal digit of the units of `n`. -/
def digitChar (n : Nat) : Char := Char.ofNat (48 + n % 10)

/-- The last two decimal digits of `n`. -/
def pad2 (n : Nat) : List Char := [digitChar (n / 10), digitChar n]

/-- The last three decimal digits of `n`. -/
def pad3 (n : Nat) : List Char := [digitChar (n / 100), digitChar (n / 10), digitChar n]

/-- The last four decimal digits of `n`. -/
def pad4 (n : Nat) : List Char :=
  [digitChar (n / 1000), digitChar (n / 100), digitChar (n / 10), digitChar n]

/-- The last six decimal digits of `n`. -/
def pad6 (n : Nat) : List Char :=
  [digitChar (n / 100000), digitChar (n / 10000), digitChar (n / 1000), digitChar (n / 100),
   digitChar (n / 10), digitChar n]

/-- Year, month and day of the proleptic Gregorian calendar for a number of
days since 1970-01-01. -/
def civilFromDays (days : Nat) : Nat × Nat × Nat :=
  let z := days + 719468
  let era := z / 146097
  let doe := z % 146097
  let yoe := (doe - doe / 1460 + doe / 36524 - doe / 146096) / 365
  let doy := doe - (365 * yoe + yoe / 4 - yoe / 100)
  let mp := (5 * doy + 2) / 153
  let d := doy - (153 * mp + 2) / 5 + 1
  let m := if mp < 10 then mp + 3 else mp - 9
  let y := yoe + era * 400
  (if m ≤ 2 then y + 1 else y, m, d)

/-- The method `Date.prototype.toISOString` on a time value at or after the
epoch: `YYYY-MM-DDTHH:mm:ss.sssZ`, the year with six digits and a sign beyond
9999. -/
def toISOString (ms : Nat) : String :=
  let date := civilFromDays (ms / 86400000)
  let t := ms % 86400000
  String.mk
    ((if date.1 ≤ 9999 then pad4 date.1 else '+' :: pad6 date.1) ++ ['-'] ++ pad2 date.2.1 ++
      ['-'] ++ pad2 date.2.2 ++ ['T'] ++ pad2 (t / 3600000) ++ [':'] ++ pad2 (t / 60000 % 60) ++
      [':'] ++ pad2 (t / 1000 % 60) ++ ['.'] ++ pad3 (t % 1000) ++ ['Z'])

/-- The response of the health route, `server.js` lines 180-186, at the time
`now`. -/
def healthResponse (now : Nat) : Response :=
  ⟨200, ResponseBody.health "OK" (toISOString now) "Portfolio Contact API"⟩

/-- The application of `server.js`: the middleware of lines 12-20, then the
route `POST /api/contact` with its limiter, the route `GET /api/health`, the
static files, and the 404 handler for whatever is left; an error raised by a
middleware goes to the error handler. -/
def app (express : Express) (opensAt : Nat → Nat) (env : ProcessEnv) (table : RateLimitTable)
    (req : HttpRequest) : AppOutcome :=
  match runMiddleware [express.helmet, express.cors, express.json, express.urlencoded] req with
  | MiddlewareResult.respond status content => ⟨Reply.sent status content, [], table⟩
  | MiddlewareResult.fail e => errorHandler table e
  | MiddlewareResult.next =>
    if express.routeMatches "POST" "/api/contact" req then
      ⟨Reply.json
          (contactRoute opensAt env table ⟨req.ip, req.now, req.body, req.nodemailer⟩).2.response,
        (contactRoute opensAt env table ⟨req.ip, req.now, req.body, req.nodemailer⟩).2.trace,
        (contactRoute opensAt env table ⟨req.ip, req.now, req.body, req.nodemailer⟩).1⟩
    else if express.routeMatches "GET" "/api/health" req then
      ⟨Reply.json (healthResponse req.now), [], table⟩
    else
      match express.static req with
      | MiddlewareResult.respond status content => ⟨Reply.sent status content, [], table⟩
      | MiddlewareResult.fail e => errorHandler table e
      | MiddlewareResult.next => ⟨Reply.json notFound, [], table⟩

/-- Routing by equality of method and path. -/
def exactRouting (method path : String) (req : HttpRequest) : Bool :=
  decide (req.method = method) && decide (req.path = path)

/-- A deployment in which the middleware before the routes pass every request
on and the served directory holds the file `script.js`, sent for a `GET`. -/
def siteExpress : Express :=
  ⟨fun _ => MiddlewareResult.next, fun _ => MiddlewareResult.next,
    fun _ => MiddlewareResult.next, fun _ => MiddlewareResult.next,
    fun req =>
      if req.method = "GET" ∧ req.path = "/script.js" then
        MiddlewareResult.respond 200 (utf16 "// DOM Elements")
      else MiddlewareResult.next,
    exactRouting⟩

/-- A request with no body: behind the body parsers `req.body` is the empty
object. -/
def plainRequest (method path : String) (now : Nat) : HttpRequest :=
  ⟨method, path, "203.0.113.7", now, some ⟨none, none, none, none⟩, workingMailer⟩

/-- A table in which the client has used up its five requests of the window
that starts at time 0. -/
def exhaustedTable : RateLimitTable :=
  fun ip => if ip = "203.0.113.7" then some ⟨5, 0⟩ else none


/-- A message with markup and a line break. -/
def markupMessage : JSString := utf16 "<b>Hello</b>\nsecond line"

/-! ## Server: counting what the limiter lets through -/

/-- The number of requests of the list that satisfy `p` and that the limiter
of the contact route passes on to the handler, the limiter starting from
`table`. -/
def admittedCount (opensAt : Nat → Nat) (p : Arrival → Bool) :
    RateLimitTable → List Arrival → Nat
  | _, [] => 0
  | table, a :: rest =>
    (if p a && (rateLimit contactLimiterOptions opensAt table a.ip a.now).2 then 1 else 0) +
      admittedCount opensAt p (rateLimit contactLimiterOptions opensAt table a.ip a.now).1 rest

/-- The request is of the identifier and arrives in the span of time from `lo`
to `hi`, both included. -/
def inSpan (identifier : String) (lo hi : Nat) (a : Arrival) : Bool :=
  decide (a.ip = identifier) && decide (lo ≤ a.now) && decide (a.now ≤ hi)

/-- The request is of the identifier and arrives in the `k`-th interval of
length `windowMs`. -/
def inWindow (identifier : String) (k : Nat) (a : Arrival) : Bool :=
  decide (a.ip = identifier) && decide (a.now / contactLimiterOptions.windowMs = k)

/-- The part of the quota of the `k`-th interval that the table records as
used by the identifier. -/
def usedIn (table : RateLimitTable) (identifier : String) (k : Nat) : Nat :=
  match table identifier with
  | some w => if w.windowStart = k * contactLimiterOptions.windowMs then min w.count 5 else 0
  | none => 0

/-- The entry of the identifier, if any, is for one of the consecutive
intervals and was opened no later than `last`. -/
def AlignedBefore (table : RateLimitTable) (identifier : String) (last : Nat) : Prop :=
  ∀ w, table identifier = some w →
    w.windowStart % contactLimiterOptions.windowMs = 0 ∧ w.windowStart ≤ last

/-- Ten valid submissions of one client: five in the last millisecond of the
first interval of 15 minutes and five in the first millisecond of the next. -/
def burstSchedule : List Arrival :=
  List.replicate 5 (requestAt "203.0.113.7" validContactData 899999) ++
    List.replicate 5 (requestAt "203.0.113.7" validContactData 900000)

/-! ## Server: requests answered by the handler -/

/-- The number of requests of the list that satisfy `p` and that the server
answers from the handler, that is, with a status other than the limiter's
429. -/
def handledCount (p : Arrival → Bool) : List Arrival → List Outcome → Nat
  | a :: arrivals, o :: outcomes =>
    (if p a && (o.response.status != 429) then 1 else 0) + handledCount p arrivals outcomes
  | _, _ => 0

/-- With windows opened by requests: a bound on the requests of the
identifier still to be let through from time `lo` on within a span shorter
than a window, by the identifier's entry. -/
def spanBudget (table : RateLimitTable) (identifier : String) (lo : Nat) : Nat :=
  match table identifier with
  | none => 5
  | some w => if lo ≤ w.windowStart then 5 - min w.count 5 else 5 - min w.count 5 + 5

/-- The entry of the identifier, if any, has counted the request that opened
its window. -/
def CountedOpener (table : RateLimitTable) (identifier : String) : Prop :=
  ∀ w, table identifier = some w → 1 ≤ w.count

/-- A request of the client with the given body at the given time, the mail
library being the published package. -/
def postAt (ip : String) (body : ContactBody) (now : Nat) : Arrival :=
  ⟨ip, now, some body, throwingMailer⟩

/-- One client: a request at time 0, which opens a window of 15 minutes, then
five requests in the last millisecond of that window and five in the
millisecond after it. -/
def burstAfterOpener : List Arrival :=
  postAt "203.0.113.7" validContactData 0 ::
    (List.replicate 5 (postAt "203.0.113.7" validContactData 899999) ++
      List.replicate 5 (postAt "203.0.113.7" validContactData 900000))

/-- One client on a fresh server: five requests in one millisecond and five
in the next, 15 minutes after the start of the server. -/
def burstOnFreshServer : List Arrival :=
  List.replicate 5 (postAt "203.0.113.7" validContactData 899999) ++
    List.replicate 5 (postAt "203.0.113.7" validContactData 900000)

/-! ## Server: request bodies of any JSON type

The body parsers hand the handler whatever JSON the client sent, so a field
of the body need not be a string.  `JSValue` is a field value as the handler
can observe it; `contactHandlerJson` is the handler on such bodies, and
`contactHandler` above is its restriction to fields that are strings or
absent (`contactHandlerJson_strings`). -/

/-- A value of a parsed JSON body, as far as the handler observes it: a
number is given by the string that `String(value)` yields, zero being `0`; an
array by its number of items and the outcome of its conversion to a string
(the join of its items, which throws when an item cannot be converted); an
object by the outcome of the test `value.length < k` and the outcome of its
conversion to a string. -/
inductive JSValue where
  | undefined
  | null
  | boolean (b : Bool)
  | number (text : JSString)
  | string (s : JSString)
  | array (length : Nat) (text : Except JSError JSString)
  | object (lengthBelow : Nat → Except JSError Bool) (text : Except JSError JSString)

/-- JavaScript `!value`. -/
def JSValue.falsy (v : JSValue) : Bool :=
  match v with
  | JSValue.undefined => true
  | JSValue.null => true
  | JSValue.boolean b => !b
  | JSValue.number text => decide (text = utf16 "0")
  | JSValue.string s => s.isEmpty
  | JSValue.array _ _ => false
  | JSValue.object _ _ => false

/-- The exception of reading a property of `undefined` or `null`. -/
def propertyError : JSError := ⟨"TypeError", "Cannot read properties of undefined"⟩

/-- The test `value.length < k`: a string and an array have a length, a
boolean and a number have none and `undefined < k` is false. -/
def JSValue.lengthBelow (v : JSValue) (k : Nat) : Except JSError Bool :=
  match v with
  | JSValue.undefined => Except.error propertyError
  | JSValue.null => Except.error propertyError
  | JSValue.boolean _ => Except.ok false
  | JSValue.number _ => Except.ok false
  | JSValue.string s => Except.ok (decide (s.length < k))
  | JSValue.array n _ => Except.ok (decide (n < k))
  | JSValue.object below _ => below k

/-- The conversion `String(value)` that `RegExp.prototype.test` and a template
literal apply. -/
def JSValue.toStr (v : JSValue) : Except JSError JSString :=
  match v with
  | JSValue.undefined => Except.ok (utf16 "undefined")
  | JSValue.null => Except.ok (utf16 "null")
  | JSValue.boolean b => Except.ok (if b then utf16 "true" else utf16 "false")
  | JSValue.number text => Except.ok text
  | JSValue.string s => Except.ok s
  | JSValue.array _ text => text
  | JSValue.object _ text => text

/-- The field is a string of at least `k` characters. -/
def JSValue.hasLength (v : JSValue) (k : Nat) : Bool :=
  match v with
  | JSValue.string s => decide (k ≤ s.length)
  | _ => false

/-- The value of a property that holds a string or is absent. -/
def JSValue.ofOption (v : Option JSString) : JSValue :=
  match v with
  | none => JSValue.undefined
  | some s => JSValue.string s

/-- The body of a request to `POST /api/contact` after parsing: four
properties of any JSON type, `undefined` when absent. -/
structure JsonBody where
  name : JSValue
  email : JSValue
  subject : JSValue
  message : JSValue

/-- A body whose fields are strings or absent, as a JSON body. -/
def ContactBody.toJson (b : ContactBody) : JsonBody :=
  ⟨JSValue.ofOption b.name, JSValue.ofOption b.email, JSValue.ofOption b.subject,
    JSValue.ofOption b.message⟩

/-- A message object handed to `sendMail`, the fields `to` and `replyTo`
holding the values as the handler passes them. -/
structure JsonMail where
  fromAddr : Option JSString
  toAddr : JSValue
  replyTo : JSValue
  subject : JSString
  html : JSString
  text : JSString

/-- A message object with string addresses, as handed to `sendMail`. -/
def Mail.toJson (m : Mail) : JsonMail :=
  ⟨m.fromAddr, JSValue.ofOption m.toAddr, JSValue.ofOption m.replyTo, m.subject, m.html,
    m.text⟩

/-- A transporter object, as `Transporter`, for message objects of any
content. -/
structure JsonTransporter where
  sendMail : Nat → JsonMail → Except JSError Unit

/-- The `nodemailer` module, as `Nodemailer`, for message objects of any
content. -/
structure JsonNodemailer where
  createTransporter : TransportOptions → Except JSError JsonTransporter

/-- The mail library restricted to message objects with string addresses. -/
def JsonNodemailer.narrow (nodemailer : JsonNodemailer) : Nodemailer :=
  ⟨fun options => match nodemailer.createTransporter options with
    | Except.error e => Except.error e
    | Except.ok t => Except.ok ⟨fun n mail => t.sendMail n mail.toJson⟩⟩

/-- The effects of a run of the handler on a JSON body. -/
inductive JsonEvent where
  | createTransporter (options : TransportOptions)
  | sendMail (mail : JsonMail)
  | consoleError (label : String) (error : JSError)

/-- An effect of a run on a body with string fields, as an effect of a run on
a JSON body. -/
def Event.toJson (ev : Event) : JsonEvent :=
  match ev with
  | Event.createTransporter options => JsonEvent.createTransporter options
  | Event.sendMail mail => JsonEvent.sendMail mail.toJson
  | Event.consoleError label e => JsonEvent.consoleError label e

/-- The response and the effects of one run of the handler on a JSON body. -/
structure JsonOutcome where
  response : Response
  trace : List JsonEvent

/-- The exception of calling `message.replace` when `message` is not a
string. -/
def replaceError : JSError := ⟨"TypeError", "message.replace is not a function"⟩

/-- The object `mailOptions` of `server.js` lines 86-122 for fields of any
JSON type: the templates convert `subject`, `name` and `email` to strings, in
this order, and call `message.replace`, which only a string has. -/
def mailOptionsJson (env : ProcessEnv) (b : JsonBody) : Except JSError JsonMail :=
  match b.subject.toStr with
  | Except.error e => Except.error e
  | Except.ok subject =>
    match b.name.toStr with
    | Except.error e => Except.error e
    | Except.ok name =>
      match b.email.toStr with
      | Except.error e => Except.error e
      | Except.ok email =>
        match b.message with
        | JSValue.string message =>
          Except.ok ⟨env.EMAIL_USER, JSValue.ofOption env.EMAIL_USER, b.email,
            utf16 "Portfolio Contact: " ++ subject, mailOptionsHtml name email subject message,
            mailOptionsText name email subject message⟩
        | _ => Except.error replaceError

/-- The object `userMailOptions` of `server.js` lines 128-162 for fields of any
JSON type. -/
def userMailOptionsJson (env : ProcessEnv) (b : JsonBody) : Except JSError JsonMail :=
  match b.name.toStr with
  | Except.error e => Except.error e
  | Except.ok name =>
    match b.subject.toStr with
    | Except.error e => Except.error e
    | Except.ok subject =>
      match b.message with
      | JSValue.string message =>
        Except.ok ⟨env.EMAIL_USER, b.email, JSValue.undefined,
          utf16 "Thank you for contacting me!", userMailOptionsHtml name subject message,
          userMailOptionsText name subject message⟩
      | _ => Except.error replaceError

/-- The return of a validation rule in a run on a JSON body. -/
def badRequestJson (error : String) : List JsonEvent × Except JSError Response :=
  ([], Except.ok ⟨400, ResponseBody.error error⟩)

/-- The `try` block of the handler of `POST /api/contact`, `server.js` lines
46-169, on a body with fields of any JSON type. -/
def contactTryJson (env : ProcessEnv) (nodemailer : JsonNodemailer) (b : JsonBody) :
    List JsonEvent × Except JSError Response :=
  if b.name.falsy || b.email.falsy || b.subject.falsy || b.message.falsy then
    badRequestJson "All fields are required"
  else
    match b.name.lengthBelow 2 with
    | Except.error e => ([], Except.error e)
    | Except.ok true => badRequestJson "Name must be at least 2 characters long"
    | Except.ok false =>
      match b.subject.lengthBelow 5 with
      | Except.error e => ([], Except.error e)
      | Except.ok true => badRequestJson "Subject must be at least 5 characters long"
      | Except.ok false =>
        match b.message.lengthBelow 10 with
        | Except.error e => ([], Except.error e)
        | Except.ok true => badRequestJson "Message must be at least 10 characters long"
        | Except.ok false =>
          match b.email.toStr with
          | Except.error e => ([], Except.error e)
          | Except.ok emailText =>
            if !regexTest emailRegex emailText then
              badRequestJson "Please enter a valid email address"
            else
              match nodemailer.createTransporter (transportOptions env) with
              | Except.error e =>
                ([JsonEvent.createTransporter (transportOptions env)], Except.error e)
              | Except.ok transporter =>
                match mailOptionsJson env b with
                | Except.error e =>
                  ([JsonEvent.createTransporter (transportOptions env)], Except.error e)
                | Except.ok mail =>
                  match transporter.sendMail 0 mail with
                  | Except.error e =>
                    ([JsonEvent.createTransporter (transportOptions env),
                      JsonEvent.sendMail mail], Except.error e)
                  | Except.ok _ =>
                    match userMailOptionsJson env b with
                    | Except.error e =>
                      ([JsonEvent.createTransporter (transportOptions env),
                        JsonEvent.sendMail mail], Except.error e)
                    | Except.ok userMail =>
                      match transporter.sendMail 1 userMail with
                      | Except.error e =>
                        ([JsonEvent.createTransporter (transportOptions env),
                          JsonEvent.sendMail mail, JsonEvent.sendMail userMail],
                          Except.error e)
                      | Except.ok _ =>
                        ([JsonEvent.createTransporter (transportOptions env),
                          JsonEvent.sendMail mail, JsonEvent.sendMail userMail],
                         Except.ok ⟨200, ResponseBody.success
                           "Message sent successfully! I\x27ll get back to you soon."⟩)

/-- The handler of `POST /api/contact`, `server.js` lines 45-177, on a body
with fields of any JSON type: the `try` block and the `catch` block. -/
def contactHandlerJson (env : ProcessEnv) (nodemailer : JsonNodemailer) (b : JsonBody) :
    JsonOutcome :=
  match contactTryJson env nodemailer b with
  | (trace, Except.ok response) => ⟨response, trace⟩
  | (trace, Except.error e) =>
    ⟨failureResponse, trace ++ [JsonEvent.consoleError "Contact form error:" e]⟩

/-- The messages handed to `sendMail` in a run on a JSON body, in order. -/
def mailsSentJson (trace : List JsonEvent) : List JsonMail :=
  trace.filterMap (fun ev => match ev with
    | JsonEvent.sendMail mail => some mail
    | _ => none)

/-- The run called `createTransporter`. -/
def calledCreateTransporter (trace : List JsonEvent) : Bool :=
  trace.any (fun ev => match ev with
    | JsonEvent.createTransporter _ => true
    | _ => false)

/-- The nodemailer package as published, for message objects of any content:
the call `nodemailer.createTransporter(...)` throws. -/
def throwingMailerJson : JsonNodemailer :=
  ⟨fun _ => Except.error ⟨"TypeError", "nodemailer.createTransporter is not a function"⟩⟩

/-- A stand-in for the mail library in which the factory the code calls exists
and every call succeeds, for message objects of any content. -/
def workingMailerJson : JsonNodemailer := ⟨fun _ => Except.ok ⟨fun _ _ => Except.ok ()⟩⟩

/-- The submission of the backend test whose fields are all too short, with
the number 7 for the name. -/
def numberNameShortData : JsonBody :=
  ⟨JSValue.number (utf16 "7"), JSValue.string (utf16 "invalid-email"),
    JSValue.string (utf16 "Hi"), JSValue.string (utf16 "Hi")⟩

/-- The valid submission of the backend test with the number 7 for the
name. -/
def numberNameData : JsonBody :=
  ⟨JSValue.number (utf16 "7"), JSValue.string (utf16 "test@example.com"),
    JSValue.string (utf16 "Test Message"),
    JSValue.string (utf16 "This is a test message to verify the backend is working correctly.")⟩

/-! ## The email pattern -/

theorem matchItems_nil (s : JSString) : matchItems [] s = true ↔ s = [] := by
  cases s <;> simp [matchItems]

theorem matchItems_one (cls : CodeUnit → Bool) (rest : List RegexItem) (s : JSString) :
    matchItems (RegexItem.one cls :: rest) s = true ↔
      ∃ c t, s = c :: t ∧ cls c = true ∧ matchItems rest t = true := by
  cases s with
  | nil => simp [matchItems]
  | cons c t =>
    simp only [matchItems, Bool.and_eq_true, List.cons.injEq]
    constructor
    · rintro ⟨h1, h2⟩
      exact ⟨c, t, ⟨rfl, rfl⟩, h1, h2⟩
    · rintro ⟨c1, t1, ⟨rfl, rfl⟩, h1, h2⟩
      exact ⟨h1, h2⟩

theorem matchItems_oneOrMore (cls : CodeUnit → Bool) (rest : List RegexItem) (s : JSString) :
    matchItems (RegexItem.oneOrMore cls :: rest) s = true ↔
      ∃ a t, a ≠ [] ∧ (∀ c ∈ a, cls c = true) ∧ s = a ++ t ∧ matchItems rest t = true := by
  induction s with
  | nil =>
    simp only [matchItems, Bool.false_eq_true, false_iff]
    rintro ⟨a, t, ha, -, hs, -⟩
    cases a with
    | nil => exact ha rfl
    | cons x xs => simp at hs
  | cons c s ih =>
    simp only [matchItems, Bool.and_eq_true, Bool.or_eq_true, ih]
    constructor
    · rintro ⟨hc, h | h⟩
      · obtain ⟨a, t, -, hall, hs, hm⟩ := h
        refine ⟨c :: a, t, by simp, ?_, by simp [hs], hm⟩
        intro x hx
        rcases List.mem_cons.mp hx with rfl | hx
        · exact hc
        · exact hall x hx
      · exact ⟨[c], s, by simp, by simpa using hc, by simp, h⟩
    · rintro ⟨a, t, ha, hall, hs, hm⟩
      cases a with
      | nil => exact absurd rfl ha
      | cons x xs =>
        simp only [List.cons_append, List.cons.injEq] at hs
        obtain ⟨rfl, rfl⟩ := hs
        refine ⟨hall c (by simp), ?_⟩
        cases xs with
        | nil => right; simpa using hm
        | cons y ys =>
          left
          exact ⟨y :: ys, t, by simp, fun z hz => hall z (List.mem_cons_of_mem _ hz), rfl, hm⟩

theorem isAt_iff (c : CodeUnit) : isAt c = true ↔ c = codeUnit 64 := by
  unfold isAt codeUnit
  rw [Fin.ext_iff, beq_iff_eq]

theorem isDot_iff (c : CodeUnit) : isDot c = true ↔ c = codeUnit 46 := by
  unfold isDot codeUnit
  rw [Fin.ext_iff, beq_iff_eq]

/-- The strings the email pattern matches. -/
theorem isValidEmail_iff (s : JSString) : isValidEmail s = true ↔ EmailShape s := by
  unfold isValidEmail regexTest emailRegex EmailShape IsLabel
  constructor
  · intro h
    obtain ⟨a, t1, ha, halla, rfl, h1⟩ := (matchItems_oneOrMore _ _ _).mp h
    obtain ⟨x, t2, rfl, hx, h2⟩ := (matchItems_one _ _ _).mp h1
    obtain ⟨b, t3, hb, hallb, rfl, h3⟩ := (matchItems_oneOrMore _ _ _).mp h2
    obtain ⟨y, t4, rfl, hy, h4⟩ := (matchItems_one _ _ _).mp h3
    obtain ⟨c, t5, hc, hallc, rfl, h5⟩ := (matchItems_oneOrMore _ _ _).mp h4
    have h6 := (matchItems_nil _).mp h5
    subst h6
    rw [isAt_iff] at hx
    rw [isDot_iff] at hy
    subst hx hy
    exact ⟨a, b, c, by simp, ⟨ha, halla⟩, ⟨hb, hallb⟩, ⟨hc, hallc⟩⟩
  · rintro ⟨a, b, c, rfl, ⟨ha, halla⟩, ⟨hb, hallb⟩, ⟨hc, hallc⟩⟩
    refine (matchItems_oneOrMore _ _ _).mpr ⟨a, _, ha, halla, rfl, ?_⟩
    refine (matchItems_one _ _ _).mpr ⟨_, _, rfl, (isAt_iff _).mpr rfl, ?_⟩
    refine (matchItems_oneOrMore _ _ _).mpr ⟨b, _, hb, hallb, rfl, ?_⟩
    refine (matchItems_one _ _ _).mpr ⟨_, _, rfl, (isDot_iff _).mpr rfl, ?_⟩
    refine (matchItems_oneOrMore _ _ _).mpr ⟨c, [], hc, hallc, by simp, ?_⟩
    exact (matchItems_nil _).mpr rfl

/-- An email the pattern matches contains `@` and `.`. -/
theorem isValidEmail_mem (s : JSString) (h : isValidEmail s = true) :
    codeUnit 64 ∈ s ∧ codeUnit 46 ∈ s := by
  obtain ⟨a, b, c, rfl, -, -, -⟩ := (isValidEmail_iff s).mp h
  simp

/-! ## Validation -/

/-- The first violated rule of a body whose four fields are strings, as a
chain of tests. -/
theorem firstFailure_strings (name email subject message : JSString) :
    firstFailure specRules ⟨some name, some email, some subject, some message⟩ =
      if name.isEmpty || email.isEmpty || subject.isEmpty || message.isEmpty then
        some "All fields are required"
      else if name.length < 2 then some "Name must be at least 2 characters long"
      else if subject.length < 5 then some "Subject must be at least 5 characters long"
      else if message.length < 10 then some "Message must be at least 10 characters long"
      else if !isValidEmail email then some "Please enter a valid email address"
      else none := by
  simp only [firstFailure, specRules, ruleAllPresent, ruleName, ruleSubject, ruleMessage,
    ruleEmail, falsy, fieldLength, List.find?]
  cases name.isEmpty <;> cases email.isEmpty <;> cases subject.isEmpty <;>
    cases message.isEmpty <;> simp
  by_cases h2 : name.length < 2
  · simp [h2, Nat.not_le.mpr h2]
  · simp only [h2, Nat.not_lt.mp h2, decide_True, Bool.not_true, if_false]
    by_cases h3 : subject.length < 5
    · simp [h3, Nat.not_le.mpr h3]
    · simp only [h3, Nat.not_lt.mp h3, decide_True, Bool.not_true, if_false]
      by_cases h4 : message.length < 10
      · simp [h4, Nat.not_le.mpr h4]
      · simp only [h4, Nat.not_lt.mp h4, decide_True, Bool.not_true, if_false]
        cases isValidEmail email <;> simp

/-- A body with an absent field violates rule (1). -/
theorem firstFailure_absent (b : ContactBody)
    (h : b.name = none ∨ b.email = none ∨ b.subject = none ∨ b.message = none) :
    firstFailure specRules b = some "All fields are required" := by
  rcases b with ⟨name, email, subject, message⟩
  simp only at h
  rcases h with rfl | rfl | rfl | rfl <;>
    simp [firstFailure, specRules, ruleAllPresent, falsy, List.find?]

/-- What the `try` block does, by the first violated rule. -/
theorem contactTry_of_firstFailure (env : ProcessEnv) (nodemailer : Nodemailer)
    (b : ContactBody) (msg : String) (h : firstFailure specRules b = some msg) :
    contactTry env nodemailer (some b) = badRequest msg := by
  rcases b with ⟨_ | name, _ | email, _ | subject, _ | message⟩
  case mk.some.some.some.some =>
    rw [firstFailure_strings] at h
    simp only [contactTry, regexTest]
    unfold isValidEmail regexTest at h
    split_ifs at h ⊢ <;> simp_all
  all_goals
    rw [firstFailure_absent _ (by simp)] at h
    simp only [Option.some.injEq] at h
    simp [contactTry, ← h]

/-- The email pattern matches no empty string. -/
theorem isValidEmail_nil : isValidEmail [] = false := rfl

/-- A body passes all five rules exactly when its four fields are strings of
the required lengths and the email matches the pattern. -/
theorem serverAccepts_strings (name email subject message : JSString) :
    serverAccepts ⟨some name, some email, some subject, some message⟩ = true ↔
      2 ≤ name.length ∧ 5 ≤ subject.length ∧ 10 ≤ message.length ∧
        isValidEmail email = true := by
  unfold serverAccepts
  rw [firstFailure_strings, Option.isNone_iff_eq_none]
  constructor
  · intro h
    split_ifs at h with h1 h2 h3 h4 h5
    exact ⟨Nat.not_lt.mp h2, Nat.not_lt.mp h3, Nat.not_lt.mp h4, by simpa using h5⟩
  · rintro ⟨h2, h3, h4, h5⟩
    have hn : name.isEmpty = false := by cases name <;> simp_all
    have he : email.isEmpty = false := by
      cases email
      · rw [isValidEmail_nil] at h5; exact absurd h5 (by decide)
      · rfl
    have hs : subject.isEmpty = false := by cases subject <;> simp_all
    have hm : message.isEmpty = false := by cases message <;> simp_all
    simp [hn, he, hs, hm, Nat.not_lt.mpr h2, Nat.not_lt.mpr h3, Nat.not_lt.mpr h4, h5]

/-- A body that passes all five rules has four string fields. -/
theorem serverAccepts_fields (b : ContactBody) (h : serverAccepts b = true) :
    ∃ name email subject message, b = ⟨some name, some email, some subject, some message⟩ := by
  rcases b with ⟨_ | name, _ | email, _ | subject, _ | message⟩
  case mk.some.some.some.some => exact ⟨name, email, subject, message, rfl⟩
  all_goals
    unfold serverAccepts at h
    rw [firstFailure_absent _ (by simp)] at h
    exact absurd h (by decide)

/-- The `try` block on a body that passes validation: the dispatch. -/
theorem contactTry_accepted (env : ProcessEnv) (nodemailer : Nodemailer)
    (name email subject message : JSString)
    (h : serverAccepts ⟨some name, some email, some subject, some message⟩ = true) :
    contactTry env nodemailer (some ⟨some name, some email, some subject, some message⟩) =
      match createTransporter env nodemailer with
      | Except.error e => ([Event.createTransporter (transportOptions env)], Except.error e)
      | Except.ok transporter =>
        match transporter.sendMail 0 (mailOptions env name email subject message) with
        | Except.error e =>
          ([Event.createTransporter (transportOptions env),
            Event.sendMail (mailOptions env name email subject message)], Except.error e)
        | Except.ok _ =>
          match transporter.sendMail 1 (userMailOptions env name email subject message) with
          | Except.error e =>
            ([Event.createTransporter (transportOptions env),
              Event.sendMail (mailOptions env name email subject message),
              Event.sendMail (userMailOptions env name email subject message)], Except.error e)
          | Except.ok _ =>
            ([Event.createTransporter (transportOptions env),
              Event.sendMail (mailOptions env name email subject message),
              Event.sendMail (userMailOptions env name email subject message)],
             Except.ok ⟨200, ResponseBody.success
               "Message sent successfully! I\x27ll get back to you soon."⟩) := by
  have hv := h
  unfold serverAccepts at h
  rw [firstFailure_strings, Option.isNone_iff_eq_none] at h
  obtain ⟨h2, h3, h4, h5⟩ := (serverAccepts_strings name email subject message).mp hv
  simp only [contactTry, regexTest]
  unfold isValidEmail regexTest at h h5
  split_ifs at h ⊢
  simp_all

/-- The handler on a body that violates a rule. -/
theorem contactHandler_of_firstFailure (env : ProcessEnv) (nodemailer : Nodemailer)
    (b : ContactBody) (msg : String) (h : firstFailure specRules b = some msg) :
    contactHandler env nodemailer (some b) = ⟨⟨400, ResponseBody.error msg⟩, []⟩ := by
  unfold contactHandler
  rw [contactTry_of_firstFailure env nodemailer b msg h]
  rfl

/-! ## No dispatch without validation -/

theorem firstFailure_of_not_accepts (b : ContactBody) (h : serverAccepts b = false) :
    ∃ msg, firstFailure specRules b = some msg := by
  unfold serverAccepts at h
  cases hf : firstFailure specRules b with
  | none => rw [hf] at h; exact absurd h (by decide)
  | some msg => exact ⟨msg, rfl⟩

theorem not_accepts_of_rejectable (b : ContactBody) (h : Rejectable b) :
    serverAccepts b = false := by
  rcases b with ⟨_ | name, _ | email, _ | subject, _ | message⟩
  case mk.some.some.some.some =>
    cases hv : serverAccepts ⟨some name, some email, some subject, some message⟩ with
    | false => rfl
    | true =>
      obtain ⟨h2, h3, h4, h5⟩ := (serverAccepts_strings name email subject message).mp hv
      obtain ⟨hat, hdot⟩ := isValidEmail_mem email h5
      simp only [Rejectable, fieldLength, Option.some.injEq, exists_eq_left'] at h
      rcases h with h | h | h | h | h | h | h | h | h
      · exact absurd h (by simp)
      · exact absurd h (by simp)
      · exact absurd h (by simp)
      · exact absurd h (by simp)
      · omega
      · omega
      · omega
      · exact absurd hat h
      · exact absurd hdot h
  all_goals
    unfold serverAccepts
    rw [firstFailure_absent _ (by simp)]
    rfl

/-- The effects of the route are those of the handler or none. -/
theorem contactRoute_trace (opensAt : Nat → Nat) (env : ProcessEnv) (table : RateLimitTable)
    (a : Arrival) :
    (contactRoute opensAt env table a).2 = contactHandler env a.nodemailer a.body ∨
      (contactRoute opensAt env table a).2 = tooManyRequests := by
  unfold contactRoute
  cases (rateLimit contactLimiterOptions opensAt table a.ip a.now).2 <;> simp

/-- On bodies whose fields are strings or absent: a submission that misses a
field, or has a name shorter than 2, a subject shorter than 5 or a message
shorter than 10, or whose email has no `@` or no `.`, is answered 400 by the
handler with no effect, and the route has no effect for it either; and
whenever `sendMail` is called the fields have the required lengths and the
email the required shape. -/
theorem contactHandler_rejectable (env : ProcessEnv) (nodemailer : Nodemailer)
    (b : ContactBody) :
    (Rejectable b →
      (∃ msg, contactHandler env nodemailer (some b) = ⟨⟨400, ResponseBody.error msg⟩, []⟩) ∧
      ∀ opensAt table ip now,
        (contactRoute opensAt env table ⟨ip, now, some b, nodemailer⟩).2.trace = []) ∧
    ((∃ mail, Event.sendMail mail ∈ (contactHandler env nodemailer (some b)).trace) →
      ∃ name email subject message,
        b = ⟨some name, some email, some subject, some message⟩ ∧
        2 ≤ name.length ∧ 5 ≤ subject.length ∧ 10 ≤ message.length ∧
        isValidEmail email = true) := by
  constructor
  · intro h
    obtain ⟨msg, hmsg⟩ := firstFailure_of_not_accepts b (not_accepts_of_rejectable b h)
    have hh := contactHandler_of_firstFailure env nodemailer b msg hmsg
    refine ⟨⟨msg, hh⟩, ?_⟩
    intro opensAt table ip now
    rcases contactRoute_trace opensAt env table ⟨ip, now, some b, nodemailer⟩ with hr | hr
    · rw [hr]; simp only; rw [hh]
    · rw [hr]; rfl
  · rintro ⟨mail, hmem⟩
    cases hv : serverAccepts b with
    | false =>
      obtain ⟨msg, hmsg⟩ := firstFailure_of_not_accepts b hv
      rw [contactHandler_of_firstFailure env nodemailer b msg hmsg] at hmem
      simp at hmem
    | true =>
      obtain ⟨name, email, subject, message, rfl⟩ := serverAccepts_fields b hv
      exact ⟨name, email, subject, message, rfl,
        (serverAccepts_strings name email subject message).mp hv⟩

/-! ## Dispatch -/

theorem contactHandler_first_rejected (env : ProcessEnv) (nodemailer : Nodemailer)
    (name email subject message : JSString) (t : Transporter) (e : JSError)
    (hv : serverAccepts ⟨some name, some email, some subject, some message⟩ = true)
    (ht : createTransporter env nodemailer = Except.ok t)
    (h1 : t.sendMail 0 (mailOptions env name email subject message) = Except.error e) :
    contactHandler env nodemailer (some ⟨some name, some email, some subject, some message⟩) =
      ⟨failureResponse,
        [Event.createTransporter (transportOptions env),
         Event.sendMail (mailOptions env name email subject message),
         Event.consoleError "Contact form error:" e]⟩ := by
  unfold contactHandler
  rw [contactTry_accepted env nodemailer name email subject message hv, ht]
  simp only [h1, List.cons_append, List.nil_append]

theorem contactHandler_second_rejected (env : ProcessEnv) (nodemailer : Nodemailer)
    (name email subject message : JSString) (t : Transporter) (e : JSError)
    (hv : serverAccepts ⟨some name, some email, some subject, some message⟩ = true)
    (ht : createTransporter env nodemailer = Except.ok t)
    (h1 : t.sendMail 0 (mailOptions env name email subject message) = Except.ok ())
    (h2 : t.sendMail 1 (userMailOptions env name email subject message) = Except.error e) :
    contactHandler env nodemailer (some ⟨some name, some email, some subject, some message⟩) =
      ⟨failureResponse,
        [Event.createTransporter (transportOptions env),
         Event.sendMail (mailOptions env name email subject message),
         Event.sendMail (userMailOptions env name email subject message),
         Event.consoleError "Contact form error:" e]⟩ := by
  unfold contactHandler
  rw [contactTry_accepted env nodemailer name email subject message hv, ht]
  simp only [h1, h2, List.cons_append, List.nil_append]

theorem contactHandler_both_accepted (env : ProcessEnv) (nodemailer : Nodemailer)
    (name email subject message : JSString) (t : Transporter)
    (hv : serverAccepts ⟨some name, some email, some subject, some message⟩ = true)
    (ht : createTransporter env nodemailer = Except.ok t)
    (h1 : t.sendMail 0 (mailOptions env name email subject message) = Except.ok ())
    (h2 : t.sendMail 1 (userMailOptions env name email subject message) = Except.ok ()) :
    contactHandler env nodemailer (some ⟨some name, some email, some subject, some message⟩) =
      ⟨⟨200, ResponseBody.success "Message sent successfully! I\x27ll get back to you soon."⟩,
        [Event.createTransporter (transportOptions env),
         Event.sendMail (mailOptions env name email subject message),
         Event.sendMail (userMailOptions env name email subject message)]⟩ := by
  unfold contactHandler
  rw [contactTry_accepted env nodemailer name email subject message hv, ht]
  simp only [h1, h2]

theorem contactHandler_create_throws (env : ProcessEnv) (nodemailer : Nodemailer)
    (name email subject message : JSString) (e : JSError)
    (hv : serverAccepts ⟨some name, some email, some subject, some message⟩ = true)
    (ht : createTransporter env nodemailer = Except.error e) :
    contactHandler env nodemailer (some ⟨some name, some email, some subject, some message⟩) =
      ⟨failureResponse,
        [Event.createTransporter (transportOptions env),
         Event.consoleError "Contact form error:" e]⟩ := by
  unfold contactHandler
  rw [contactTry_accepted env nodemailer name email subject message hv, ht]
  simp only [List.cons_append, List.nil_append]

theorem except_unit_cases (r : Except JSError Unit) : r = Except.ok () ∨ ∃ e, r = Except.error e := by
  cases r with
  | error e => exact Or.inr ⟨e, rfl⟩
  | ok u => exact Or.inl rfl

/-- When either send rejects the response is the generic failure. -/
theorem contactHandler_send_rejected (env : ProcessEnv) (nodemailer : Nodemailer)
    (name email subject message : JSString) (t : Transporter) (e : JSError)
    (hv : serverAccepts ⟨some name, some email, some subject, some message⟩ = true)
    (ht : createTransporter env nodemailer = Except.ok t)
    (h : t.sendMail 0 (mailOptions env name email subject message) = Except.error e ∨
      t.sendMail 1 (userMailOptions env name email subject message) = Except.error e) :
    (contactHandler env nodemailer
        (some ⟨some name, some email, some subject, some message⟩)).response =
      failureResponse := by
  rcases except_unit_cases (t.sendMail 0 (mailOptions env name email subject message))
    with h1 | ⟨e1, h1⟩
  · rcases h with h | h
    · rw [h1] at h; cases h
    · rw [contactHandler_second_rejected env nodemailer name email subject message t e hv ht h1 h]
  · rw [contactHandler_first_rejected env nodemailer name email subject message t e1 hv ht h1]

/-- Claim C5: on a valid submission the owner notification is sent first and
the confirmation only after the notification succeeded: when the first
`sendMail` rejects, the run makes that one send, never the second, and answers
the generic 500; when either send rejects the response is the generic 500 and
not the 200 success; and a 200 response means both sends succeeded. -/
theorem notification_before_confirmation (env : ProcessEnv) (nodemailer : Nodemailer)
    (name email subject message : JSString) (t : Transporter)
    (hv : serverAccepts ⟨some name, some email, some subject, some message⟩ = true)
    (ht : createTransporter env nodemailer = Except.ok t) :
    (∀ e, t.sendMail 0 (mailOptions env name email subject message) = Except.error e →
      contactHandler env nodemailer
          (some ⟨some name, some email, some subject, some message⟩) =
        ⟨failureResponse,
          [Event.createTransporter (transportOptions env),
           Event.sendMail (mailOptions env name email subject message),
           Event.consoleError "Contact form error:" e]⟩) ∧
    (∀ e, (t.sendMail 0 (mailOptions env name email subject message) = Except.error e ∨
          t.sendMail 1 (userMailOptions env name email subject message) = Except.error e) →
      (contactHandler env nodemailer
          (some ⟨some name, some email, some subject, some message⟩)).response =
        failureResponse) ∧
    ((contactHandler env nodemailer
          (some ⟨some name, some email, some subject, some message⟩)).response.status = 200 →
      t.sendMail 0 (mailOptions env name email subject message) = Except.ok () ∧
      t.sendMail 1 (userMailOptions env name email subject message) = Except.ok ()) ∧
    (mailsSent (contactHandler env nodemailer
          (some ⟨some name, some email, some subject, some message⟩)).trace =
        [mailOptions env name email subject message] ∨
      (t.sendMail 0 (mailOptions env name email subject message) = Except.ok () ∧
       mailsSent (contactHandler env nodemailer
          (some ⟨some name, some email, some subject, some message⟩)).trace =
        [mailOptions env name email subject message,
         userMailOptions env name email subject message])) := by
  rcases except_unit_cases (t.sendMail 0 (mailOptions env name email subject message))
    with h1 | ⟨e1, h1⟩
  · rcases except_unit_cases (t.sendMail 1 (userMailOptions env name email subject message))
      with h2 | ⟨e2, h2⟩
    · have hh := contactHandler_both_accepted env nodemailer name email subject message t hv ht h1 h2
      refine ⟨?_, ?_, ?_, ?_⟩
      · intro e he; rw [h1] at he; cases he
      · rintro e (he | he)
        · rw [h1] at he; cases he
        · rw [h2] at he; cases he
      · intro _; exact ⟨h1, h2⟩
      · right; rw [hh]; exact ⟨h1, rfl⟩
    · have hh := contactHandler_second_rejected env nodemailer name email subject message t e2
        hv ht h1 h2
      refine ⟨?_, ?_, ?_, ?_⟩
      · intro e he; rw [h1] at he; cases he
      · intro e _; rw [hh]
      · intro h200; rw [hh] at h200; simp [failureResponse] at h200
      · right; rw [hh]; exact ⟨h1, rfl⟩
  · have hh := contactHandler_first_rejected env nodemailer name email subject message t e1
      hv ht h1
    refine ⟨?_, ?_, ?_, ?_⟩
    · intro e he
      rw [h1] at he
      cases he
      exact hh
    · intro e _; rw [hh]
    · intro h200; rw [hh] at h200; simp [failureResponse] at h200
    · left; rw [hh]; rfl

/-- The valid submission of the backend test with a provider that rejects the
owner notification: one send, no confirmation, the generic 500. -/
theorem notification_before_confirmation_witness :
    contactHandler sampleEnv rejectingMailer (some validContactData) =
      ⟨failureResponse,
        [Event.createTransporter (transportOptions sampleEnv),
         Event.sendMail (mailOptions sampleEnv (utf16 "Test User") (utf16 "test@example.com")
           (utf16 "Test Message")
           (utf16 "This is a test message to verify the backend is working correctly.")),
         Event.consoleError "Contact form error:" providerError]⟩ :=
  (notification_before_confirmation sampleEnv rejectingMailer (utf16 "Test User")
    (utf16 "test@example.com") (utf16 "Test Message")
    (utf16 "This is a test message to verify the backend is working correctly.")
    ⟨fun n _ => if n = 0 then Except.error providerError else Except.ok ()⟩
    (by decide) rfl).1 providerError rfl

/-- What the handler would do with a mail library that provided the factory:
a submission that passes the five rules, handled with a transporter whose two
sends the provider accepts, would be answered 200 with `success: true` and a
non-empty message after exactly the calls `createTransporter`,
`sendMail(mailOptions)`, `sendMail(userMailOptions)`. -/
theorem valid_submission_succeeds (env : ProcessEnv) (nodemailer : Nodemailer)
    (name email subject message : JSString) (t : Transporter)
    (hv : serverAccepts ⟨some name, some email, some subject, some message⟩ = true)
    (ht : createTransporter env nodemailer = Except.ok t)
    (h1 : t.sendMail 0 (mailOptions env name email subject message) = Except.ok ())
    (h2 : t.sendMail 1 (userMailOptions env name email subject message) = Except.ok ()) :
    ∃ text, text ≠ "" ∧
      contactHandler env nodemailer
          (some ⟨some name, some email, some subject, some message⟩) =
        ⟨⟨200, ResponseBody.success text⟩,
          [Event.createTransporter (transportOptions env),
           Event.sendMail (mailOptions env name email subject message),
           Event.sendMail (userMailOptions env name email subject message)]⟩ ∧
      ∀ opensAt table ip now,
        (rateLimit contactLimiterOptions opensAt table ip now).2 = true →
        (contactRoute opensAt env table
            ⟨ip, now, some ⟨some name, some email, some subject, some message⟩,
              nodemailer⟩).2 =
          ⟨⟨200, ResponseBody.success text⟩,
            [Event.createTransporter (transportOptions env),
             Event.sendMail (mailOptions env name email subject message),
             Event.sendMail (userMailOptions env name email subject message)]⟩ := by
  have hh := contactHandler_both_accepted env nodemailer name email subject message t hv ht h1 h2
  refine ⟨_, by decide, hh, ?_⟩
  intro opensAt table ip now hadm
  simp only [contactRoute, hadm, if_true]
  exact hh

/-! ## The error boundary -/

/-- Replacing the exceptions of the mail library changes neither whether the
`try` block throws nor the response it sends. -/
theorem contactHandler_response_mapError (env : ProcessEnv) (nodemailer : Nodemailer)
    (body : Option ContactBody) (f : JSError → JSError) :
    (contactHandler env (nodemailer.mapError f) body).response =
      (contactHandler env nodemailer body).response := by
  cases body with
  | none => rfl
  | some b =>
    cases hv : serverAccepts b with
    | false =>
      obtain ⟨msg, hmsg⟩ := firstFailure_of_not_accepts b hv
      rw [contactHandler_of_firstFailure env _ b msg hmsg,
        contactHandler_of_firstFailure env _ b msg hmsg]
    | true =>
      obtain ⟨name, email, subject, message, rfl⟩ := serverAccepts_fields b hv
      unfold contactHandler
      rw [contactTry_accepted env _ name email subject message hv,
        contactTry_accepted env _ name email subject message hv]
      simp only [createTransporter, Nodemailer.mapError]
      cases nodemailer.createTransporter (transportOptions env) with
      | error e => rfl
      | ok t =>
        simp only [Transporter.mapError]
        cases t.sendMail 0 (mailOptions env name email subject message) with
        | error e => rfl
        | ok u =>
          cases t.sendMail 1 (userMailOptions env name email subject message) with
          | error e => rfl
          | ok u => rfl

/-- Claim C7: every exception raised in the `try` block of the handler, while
reading the body, creating the transporter or in either send, is caught and
answered with the one generic 500 response, in which the exception does not
appear; runs that differ only in the exceptions the mail library raises get
the same response. -/
theorem exceptions_mapped_to_generic_failure (env : ProcessEnv) (nodemailer : Nodemailer)
    (body : Option ContactBody) :
    (∀ trace e, contactTry env nodemailer body = (trace, Except.error e) →
      contactHandler env nodemailer body =
        ⟨failureResponse, trace ++ [Event.consoleError "Contact form error:" e]⟩) ∧
    (∀ f : JSError → JSError,
      (contactHandler env (nodemailer.mapError f) body).response =
        (contactHandler env nodemailer body).response) ∧
    contactHandler env nodemailer none =
      ⟨failureResponse, [Event.consoleError "Contact form error:" destructureError]⟩ ∧
    (∀ name email subject message e,
      serverAccepts ⟨some name, some email, some subject, some message⟩ = true →
      createTransporter env nodemailer = Except.error e →
      contactHandler env nodemailer
          (some ⟨some name, some email, some subject, some message⟩) =
        ⟨failureResponse,
          [Event.createTransporter (transportOptions env),
           Event.consoleError "Contact form error:" e]⟩) ∧
    (∀ name email subject message t e,
      serverAccepts ⟨some name, some email, some subject, some message⟩ = true →
      createTransporter env nodemailer = Except.ok t →
      (t.sendMail 0 (mailOptions env name email subject message) = Except.error e ∨
        t.sendMail 1 (userMailOptions env name email subject message) = Except.error e) →
      (contactHandler env nodemailer
          (some ⟨some name, some email, some subject, some message⟩)).response =
        failureResponse) ∧
    failureResponse =
      ⟨500, ResponseBody.error
        "Failed to send message. Please try again or contact me directly."⟩ := by
  refine ⟨?_, contactHandler_response_mapError env nodemailer body, rfl, ?_, ?_, rfl⟩
  · intro trace e h
    unfold contactHandler
    rw [h]
  · intro name email subject message e hv ht
    exact contactHandler_create_throws env nodemailer name email subject message e hv ht
  · intro name email subject message t e hv ht h
    exact contactHandler_send_rejected env nodemailer name email subject message t e hv ht h

/-- A mail library whose factory call throws: the valid submission of the
backend test is answered with the generic 500. -/
theorem exceptions_mapped_to_generic_failure_witness :
    contactHandler sampleEnv throwingMailer (some validContactData) =
      ⟨⟨500, ResponseBody.error
          "Failed to send message. Please try again or contact me directly."⟩,
        [Event.createTransporter (transportOptions sampleEnv),
         Event.consoleError "Contact form error:"
           ⟨"TypeError", "nodemailer.createTransporter is not a function"⟩]⟩ :=
  (exceptions_mapped_to_generic_failure sampleEnv throwingMailer (some validContactData)).1
    [Event.createTransporter (transportOptions sampleEnv)]
    ⟨"TypeError", "nodemailer.createTransporter is not a function"⟩ rfl

/-! ## The rate limiter -/

theorem rateLimit_other (options : RateLimitOptions) (opensAt : Nat → Nat)
    (table : RateLimitTable) (identifier other : String) (now : Nat) (h : other ≠ identifier) :
    (rateLimit options opensAt table identifier now).1 other = table other := by
  simp [rateLimit, Function.update_noteq h]

theorem rateLimit_running (options : RateLimitOptions) (opensAt : Nat → Nat)
    (table : RateLimitTable) (identifier : String) (now c ws : Nat)
    (h : table identifier = some ⟨c, ws⟩) (hnow : now < ws + options.windowMs) :
    (rateLimit options opensAt table identifier now).1 identifier = some ⟨c + 1, ws⟩ ∧
      (rateLimit options opensAt table identifier now).2 = decide (c + 1 ≤ options.max) := by
  simp [rateLimit, h, hnow]

theorem rateLimit_fresh (options : RateLimitOptions) (opensAt : Nat → Nat)
    (table : RateLimitTable) (identifier : String) (now : Nat)
    (h : NoRunningWindow options table identifier now) :
    (rateLimit options opensAt table identifier now).1 identifier = some ⟨1, opensAt now⟩ ∧
      (rateLimit options opensAt table identifier now).2 = decide (1 ≤ options.max) := by
  unfold NoRunningWindow at h
  cases ht : table identifier with
  | none => simp [rateLimit, ht]
  | some w =>
    have := h w ht
    simp [rateLimit, ht, Nat.not_lt.mpr this]

/-- Every request is counted: after the limiter has seen a request the entry
of its identifier holds one more than the count of the running window. -/
theorem rateLimit_count (options : RateLimitOptions) (opensAt : Nat → Nat)
    (table : RateLimitTable) (identifier : String) (now : Nat) :
    ((rateLimit options opensAt table identifier now).1 identifier).map (fun w => w.count) =
      some (currentCount options table identifier now + 1) := by
  cases ht : table identifier with
  | none => simp [rateLimit, currentCount, ht]
  | some w =>
    by_cases hnow : now < w.windowStart + options.windowMs
    · simp [rateLimit, currentCount, ht, hnow]
    · simp [rateLimit, currentCount, ht, hnow]

theorem serve_cons (opensAt : Nat → Nat) (env : ProcessEnv) (table : RateLimitTable)
    (a : Arrival) (rest : List Arrival) :
    serve opensAt env table (a :: rest) =
      (contactRoute opensAt env table a).2 ::
        serve opensAt env (contactRoute opensAt env table a).1 rest := rfl

theorem requestsBefore_succ_pos (identifier : String) (a : Arrival) (rest : List Arrival)
    (i : Nat) (h : a.ip = identifier) :
    requestsBefore identifier (a :: rest) (i + 1) = requestsBefore identifier rest i + 1 := by
  simp [requestsBefore, List.take_succ_cons, List.countP_cons_of_pos, h]

theorem requestsBefore_succ_neg (identifier : String) (a : Arrival) (rest : List Arrival)
    (i : Nat) (h : a.ip ≠ identifier) :
    requestsBefore identifier (a :: rest) (i + 1) = requestsBefore identifier rest i := by
  simp [requestsBefore, List.take_succ_cons, List.countP_cons_of_neg, h]

/-- In a running window with `c` requests counted, the requests of the
identifier are passed to the handler while the count stays within 5. -/
theorem serve_running (opensAt : Nat → Nat) (env : ProcessEnv) (identifier : String) (ws : Nat) :
    ∀ (arrivals : List Arrival) (table : RateLimitTable) (c : Nat),
      table identifier = some ⟨c, ws⟩ →
      (∀ a ∈ arrivals, a.ip = identifier → a.now < ws + contactLimiterOptions.windowMs) →
      ∀ i a, arrivals[i]? = some a → a.ip = identifier →
        (serve opensAt env table arrivals)[i]? =
          some (if c + requestsBefore identifier arrivals i < 5 then
            contactHandler env a.nodemailer a.body else tooManyRequests) := by
  intro arrivals
  induction arrivals with
  | nil => intro table c _ _ i a hi; simp at hi
  | cons x rest ih =>
    intro table c ht hwin i a hi ha
    by_cases hx : x.ip = identifier
    · have hstep := rateLimit_running contactLimiterOptions opensAt table identifier x.now c ws
        ht (hwin x (List.mem_cons_self _ _) hx)
      cases i with
      | zero =>
        simp only [List.getElem?_cons_zero, Option.some.injEq] at hi
        subst hi
        simp only [serve_cons, List.getElem?_cons_zero, contactRoute, hx, hstep.2,
          requestsBefore, List.take_zero, List.countP_nil, Nat.add_zero]
        have h5 : contactLimiterOptions.max = 5 := rfl
        by_cases hc : c < 5
        · simp [hc, h5, Nat.succ_le_of_lt hc]
        · have : ¬ c + 1 ≤ 5 := by omega
          simp [hc, h5, this]
      | succ j =>
        simp only [List.getElem?_cons_succ] at hi
        rw [serve_cons, List.getElem?_cons_succ, requestsBefore_succ_pos identifier x rest j hx]
        have ht' : (contactRoute opensAt env table x).1 identifier = some ⟨c + 1, ws⟩ := by
          simp only [contactRoute, hx]
          exact hstep.1
        rw [ih _ (c + 1) ht' (fun b hb => hwin b (List.mem_cons_of_mem _ hb)) j a hi ha]
        have : c + 1 + requestsBefore identifier rest j =
            c + (requestsBefore identifier rest j + 1) := by omega
        rw [this]
    · cases i with
      | zero =>
        simp only [List.getElem?_cons_zero, Option.some.injEq] at hi
        subst hi
        exact absurd ha hx
      | succ j =>
        simp only [List.getElem?_cons_succ] at hi
        rw [serve_cons, List.getElem?_cons_succ, requestsBefore_succ_neg identifier x rest j hx]
        have ht' : (contactRoute opensAt env table x).1 identifier = some ⟨c, ws⟩ := by
          simp only [contactRoute]
          rw [rateLimit_other _ _ _ _ _ _ (Ne.symm hx)]
          exact ht
        exact ih _ c ht' (fun b hb => hwin b (List.mem_cons_of_mem _ hb)) j a hi ha

/-- In a window opened by the identifier's first request the first five of its
requests are passed to the handler and the later ones are answered 429,
whatever their bodies and whatever other identifiers send in between. -/
theorem serve_fresh (opensAt : Nat → Nat) (env : ProcessEnv) (identifier : String)
    (first : Arrival) :
    ∀ (arrivals : List Arrival) (table : RateLimitTable),
      (arrivals.filter (fun a => decide (a.ip = identifier))).head? = some first →
      NoRunningWindow contactLimiterOptions table identifier first.now →
      (∀ a ∈ arrivals, a.ip = identifier →
        a.now < opensAt first.now + contactLimiterOptions.windowMs) →
      ∀ i a, arrivals[i]? = some a → a.ip = identifier →
        (serve opensAt env table arrivals)[i]? =
          some (if requestsBefore identifier arrivals i < 5 then
            contactHandler env a.nodemailer a.body else tooManyRequests) := by
  intro arrivals
  induction arrivals with
  | nil => intro table _ _ _ i a hi; simp at hi
  | cons x rest ih =>
    intro table hfirst hfresh hwin i a hi ha
    by_cases hx : x.ip = identifier
    · have hfx : first = x := by
        simp [List.filter_cons_of_pos, hx] at hfirst
        exact hfirst.symm
      subst hfx
      have hstep := rateLimit_fresh contactLimiterOptions opensAt table identifier first.now hfresh
      cases i with
      | zero =>
        simp only [List.getElem?_cons_zero, Option.some.injEq] at hi
        subst hi
        simp only [serve_cons, List.getElem?_cons_zero, contactRoute, hx, hstep.2,
          requestsBefore, List.take_zero, List.countP_nil]
        simp [contactLimiterOptions]
      | succ j =>
        simp only [List.getElem?_cons_succ] at hi
        rw [serve_cons, List.getElem?_cons_succ,
          requestsBefore_succ_pos identifier first rest j hx]
        have ht' : (contactRoute opensAt env table first).1 identifier =
            some ⟨1, opensAt first.now⟩ := by
          simp only [contactRoute, hx]
          exact hstep.1
        rw [serve_running opensAt env identifier (opensAt first.now) rest _ 1 ht'
          (fun b hb => hwin b (List.mem_cons_of_mem _ hb)) j a hi ha]
        have : 1 + requestsBefore identifier rest j = requestsBefore identifier rest j + 1 := by
          omega
        rw [this]
    · have hfirst' : (rest.filter (fun a => decide (a.ip = identifier))).head? = some first := by
        simpa [List.filter_cons_of_neg, hx] using hfirst
      cases i with
      | zero =>
        simp only [List.getElem?_cons_zero, Option.some.injEq] at hi
        subst hi
        exact absurd ha hx
      | succ j =>
        simp only [List.getElem?_cons_succ] at hi
        rw [serve_cons, List.getElem?_cons_succ, requestsBefore_succ_neg identifier x rest j hx]
        have hfresh' : NoRunningWindow contactLimiterOptions
            (contactRoute opensAt env table x).1 identifier first.now := by
          intro w hw
          simp only [contactRoute] at hw
          rw [rateLimit_other _ _ _ _ _ _ (Ne.symm hx)] at hw
          exact hfresh w hw
        exact ih _ hfirst' hfresh' (fun b hb => hwin b (List.mem_cons_of_mem _ hb)) j a hi ha

theorem contactHandler_accepted_head (env : ProcessEnv) (nodemailer : Nodemailer)
    (b : ContactBody) (h : serverAccepts b = true) :
    (contactHandler env nodemailer (some b)).trace.head? =
      some (Event.createTransporter (transportOptions env)) := by
  obtain ⟨name, email, subject, message, rfl⟩ := serverAccepts_fields b h
  unfold contactHandler
  rw [contactTry_accepted env nodemailer name email subject message h]
  cases createTransporter env nodemailer with
  | error e => rfl
  | ok t =>
    simp only
    cases t.sendMail 0 (mailOptions env name email subject message) with
    | error e => rfl
    | ok u =>
      simp only
      cases t.sendMail 1 (userMailOptions env name email subject message) with
      | error e => rfl
      | ok u => rfl

/-- Among at least `n + 1` elements satisfying `p` there is one preceded by
exactly `n` of them. -/
theorem exists_index_countP {α : Type} (p : α → Bool) :
    ∀ (l : List α) (n : Nat), n + 1 ≤ l.countP p →
      ∃ i a, l[i]? = some a ∧ p a = true ∧ (l.take i).countP p = n := by
  intro l
  induction l with
  | nil => intro n h; simp at h
  | cons x xs ih =>
    intro n h
    by_cases hx : p x = true
    · cases n with
      | zero => exact ⟨0, x, by simp, hx, by simp⟩
      | succ m =>
        rw [List.countP_cons_of_pos _ _ hx] at h
        obtain ⟨j, a, hj, ha, hc⟩ := ih m (by omega)
        exact ⟨j + 1, a, by simpa using hj, ha, by
          simp [List.take_succ_cons, List.countP_cons_of_pos, hx, hc]⟩
    · rw [List.countP_cons_of_neg _ _ hx] at h
      obtain ⟨j, a, hj, ha, hc⟩ := ih n h
      exact ⟨j + 1, a, by simpa using hj, ha, by
        simp [List.take_succ_cons, List.countP_cons_of_neg, hx, hc]⟩

theorem requestsBefore_all (identifier : String) (arrivals : List Arrival) (i : Nat)
    (h : ∀ a ∈ arrivals, a.ip = identifier) (hi : i ≤ arrivals.length) :
    requestsBefore identifier arrivals i = i := by
  unfold requestsBefore
  rw [List.countP_eq_length.mpr]
  · simp [hi]
  · intro a ha
    simpa using h a (List.mem_of_mem_take ha)

/-- Claim C4: of the valid submissions one client sends within one window of
15 minutes the first 5 reach the handler and start dispatch, and the 6th and
every later one is answered 429 with the too-many-submissions body and no
effect; so of 6 such submissions at least one gets a non-ok status.  Requests
of other clients may arrive in between. -/
theorem five_admitted_per_window (opensAt : Nat → Nat) (env : ProcessEnv)
    (identifier : String) (first : Arrival) (arrivals : List Arrival) (table : RateLimitTable)
    (hfirst : (arrivals.filter (fun a => decide (a.ip = identifier))).head? = some first)
    (hfresh : NoRunningWindow contactLimiterOptions table identifier first.now)
    (hwin : ∀ a ∈ arrivals, a.ip = identifier →
      a.now < opensAt first.now + contactLimiterOptions.windowMs)
    (hvalid : ∀ a ∈ arrivals, a.ip = identifier →
      ∃ b, a.body = some b ∧ serverAccepts b = true) :
    (∀ i a, arrivals[i]? = some a → a.ip = identifier →
      (requestsBefore identifier arrivals i < 5 →
        (serve opensAt env table arrivals)[i]? =
            some (contactHandler env a.nodemailer a.body) ∧
          (contactHandler env a.nodemailer a.body).trace.head? =
            some (Event.createTransporter (transportOptions env))) ∧
      (5 ≤ requestsBefore identifier arrivals i →
        (serve opensAt env table arrivals)[i]? =
          some ⟨⟨429, ResponseBody.error
            "Too many contact form submissions, please try again later."⟩, []⟩)) ∧
    (6 ≤ arrivals.countP (fun a => decide (a.ip = identifier)) →
      ∃ o ∈ serve opensAt env table arrivals, o.response.ok = false) ∧
    contactLimiterOptions.windowMs = 15 * 60 * 1000 ∧ contactLimiterOptions.max = 5 := by
  have key := serve_fresh opensAt env identifier first arrivals table hfirst hfresh hwin
  refine ⟨?_, ?_, rfl, rfl⟩
  · intro i a hi ha
    have hk := key i a hi ha
    constructor
    · intro hlt
      rw [if_pos hlt] at hk
      refine ⟨hk, ?_⟩
      obtain ⟨b, hb, hv⟩ := hvalid a (List.getElem?_mem hi) ha
      rw [hb]
      exact contactHandler_accepted_head env a.nodemailer b hv
    · intro hge
      rw [if_neg (Nat.not_lt.mpr hge)] at hk
      exact hk
  · intro h6
    obtain ⟨i, a, hi, ha, hc⟩ :=
      exists_index_countP (fun a : Arrival => decide (a.ip = identifier)) arrivals 5 h6
    have ha' : a.ip = identifier := by simpa using ha
    have hk := key i a hi ha'
    have hr : requestsBefore identifier arrivals i = 5 := hc
    rw [hr, if_neg (by decide)] at hk
    exact ⟨tooManyRequests, List.getElem?_mem hk, by decide⟩

/-- The six valid posts of the rate-limit test against a fresh server: the
sixth is answered 429. -/
theorem five_admitted_per_window_witness :
    (serve opensAtRequest sampleEnv emptyTable sixRequests)[5]? =
      some ⟨⟨429, ResponseBody.error
        "Too many contact form submissions, please try again later."⟩, []⟩ :=
  ((five_admitted_per_window opensAtRequest sampleEnv "203.0.113.7"
      (requestAt "203.0.113.7" validContactData 0) sixRequests emptyTable rfl
      (fun w hw => by simp [emptyTable] at hw)
      (fun a ha _ => by
        simp only [sixRequests, List.mem_map, List.mem_range] at ha
        obtain ⟨n, hn, rfl⟩ := ha
        simp only [requestAt, opensAtRequest, contactLimiterOptions]
        omega)
      (fun a ha _ => by
        simp only [sixRequests, List.mem_map, List.mem_range] at ha
        obtain ⟨n, _, rfl⟩ := ha
        exact ⟨validContactData, rfl, by decide⟩)).1 5
    (requestAt "203.0.113.7" validContactData 5) rfl rfl).2 (by decide)

/-! ## Validation and the limiter's quota -/

/-- A fresh server, one client: an invalid submission raises the client's
count from 0 to 1, and after five invalid submissions the five valid ones that
follow within the same window are all answered 429 instead of being admitted. -/
theorem invalid_submissions_free_counterexample :
    currentCount contactLimiterOptions emptyTable "203.0.113.7" 0 = 0 ∧
    currentCount contactLimiterOptions
      (contactRoute opensAtRequest sampleEnv emptyTable
        (requestAt "203.0.113.7" invalidContactData 0)).1 "203.0.113.7" 0 = 1 ∧
    (contactRoute opensAtRequest sampleEnv emptyTable
        (requestAt "203.0.113.7" invalidContactData 0)).2.response.status = 400 ∧
    (serve opensAtRequest sampleEnv emptyTable fiveInvalidThenFiveValid).map
        (fun o => o.response.status) =
      [400, 400, 400, 400, 400, 429, 429, 429, 429, 429] ∧
    (serve (opensAligned contactLimiterOptions.windowMs) sampleEnv emptyTable
        fiveInvalidThenFiveValid).map (fun o => o.response.status) =
      [400, 400, 400, 400, 400, 429, 429, 429, 429, 429] := by
  decide

/-- Claim C3, amended: the limiter runs before the handler and counts every
request to `POST /api/contact`, valid or not: a request raises the count of
its identifier in the running window by one whatever its body.  Of the
requests one identifier sends within one window, `k` with bodies that fail
validation and then valid ones, the invalid ones among the first five are
answered 400, and the `j`-th valid one (from 0) reaches the handler exactly
when `k + j < 5`; the others are answered 429. -/
theorem every_request_consumes_quota (opensAt : Nat → Nat) (env : ProcessEnv)
    (identifier : String) (first : Arrival) (invalids valids : List Arrival)
    (table : RateLimitTable)
    (hfirst : (invalids ++ valids).head? = some first)
    (hid : ∀ a ∈ invalids ++ valids, a.ip = identifier)
    (hfresh : NoRunningWindow contactLimiterOptions table identifier first.now)
    (hwin : ∀ a ∈ invalids ++ valids,
      a.now < opensAt first.now + contactLimiterOptions.windowMs)
    (hinv : ∀ a ∈ invalids, ∃ b, a.body = some b ∧ serverAccepts b = false) :
    (∀ (t : RateLimitTable) (a : Arrival),
      ((contactRoute opensAt env t a).1 a.ip).map (fun w => w.count) =
        some (currentCount contactLimiterOptions t a.ip a.now + 1)) ∧
    (∀ i a, invalids[i]? = some a → i < 5 →
      ∃ o, (serve opensAt env table (invalids ++ valids))[i]? = some o ∧
        o.response.status = 400 ∧ o.trace = []) ∧
    (∀ j a, valids[j]? = some a →
      (serve opensAt env table (invalids ++ valids))[invalids.length + j]? =
        some (if invalids.length + j < 5 then contactHandler env a.nodemailer a.body
          else tooManyRequests)) := by
  have hfirst' : ((invalids ++ valids).filter (fun a => decide (a.ip = identifier))).head? =
      some first := by
    rw [List.filter_eq_self.mpr (fun a ha => by simpa using hid a ha)]
    exact hfirst
  have key := serve_fresh opensAt env identifier first (invalids ++ valids) table hfirst' hfresh
    (fun a ha _ => hwin a ha)
  refine ⟨?_, ?_, ?_⟩
  · intro t a
    simp only [contactRoute]
    exact rateLimit_count contactLimiterOptions opensAt t a.ip a.now
  · intro i a hi h5
    have hlen : i < invalids.length := by
      by_contra hcon
      rw [List.getElem?_eq_none (Nat.not_lt.mp hcon)] at hi
      cases hi
    have hi' : (invalids ++ valids)[i]? = some a := by
      rw [List.getElem?_append_left hlen]
      exact hi
    have hk := key i a hi' (hid a (List.getElem?_mem hi'))
    rw [requestsBefore_all identifier _ i hid (by simp; omega), if_pos h5] at hk
    obtain ⟨b, hb, hv⟩ := hinv a (List.getElem?_mem hi)
    obtain ⟨msg, hmsg⟩ := firstFailure_of_not_accepts b hv
    refine ⟨_, hk, ?_⟩
    rw [hb, contactHandler_of_firstFailure env a.nodemailer b msg hmsg]
    exact ⟨rfl, rfl⟩
  · intro j a hj
    have hlen : j < valids.length := by
      by_contra hcon
      rw [List.getElem?_eq_none (Nat.not_lt.mp hcon)] at hj
      cases hj
    have hj' : (invalids ++ valids)[invalids.length + j]? = some a := by
      rw [List.getElem?_append_right (Nat.le_add_right _ _), Nat.add_sub_cancel_left]
      exact hj
    have hk := key (invalids.length + j) a hj' (hid a (List.getElem?_mem hj'))
    rw [requestsBefore_all identifier _ _ hid (by simp; omega)] at hk
    exact hk

/-- One invalid submission and then five valid ones on a fresh server: the
fifth valid one is answered 429. -/
theorem every_request_consumes_quota_witness :
    (serve opensAtRequest sampleEnv emptyTable
        ([requestAt "203.0.113.7" invalidContactData 0] ++
          (List.range 5).map (fun n => requestAt "203.0.113.7" validContactData (1 + n))))[5]? =
      some tooManyRequests :=
  (every_request_consumes_quota opensAtRequest sampleEnv "203.0.113.7"
    (requestAt "203.0.113.7" invalidContactData 0)
    [requestAt "203.0.113.7" invalidContactData 0]
    ((List.range 5).map (fun n => requestAt "203.0.113.7" validContactData (1 + n)))
    emptyTable rfl
    (fun a ha => by
      simp only [List.mem_append, List.mem_singleton, List.mem_map, List.mem_range] at ha
      rcases ha with rfl | ⟨n, _, rfl⟩ <;> rfl)
    (fun w hw => by simp [emptyTable] at hw)
    (fun a ha => by
      simp only [List.mem_append, List.mem_singleton, List.mem_map, List.mem_range] at ha
      rcases ha with rfl | ⟨n, hn, rfl⟩
      · decide
      · simp only [requestAt, opensAtRequest, contactLimiterOptions]
        omega)
    (fun a ha => by
      simp only [List.mem_singleton] at ha
      subst ha
      exact ⟨invalidContactData, rfl, by decide⟩)).2.2 4
    (requestAt "203.0.113.7" validContactData 5) rfl

/-! ## Client and server validation -/

theorem serverAccepts_iff_rules (b : ContactBody) :
    serverAccepts b = true ↔
      ruleAllPresent b = true ∧ ruleName b = true ∧ ruleSubject b = true ∧
        ruleMessage b = true ∧ ruleEmail b = true := by
  unfold serverAccepts
  rw [Option.isNone_iff_eq_none]
  simp only [firstFailure, specRules, List.find?, Option.map_eq_none']
  cases ruleAllPresent b <;> cases ruleName b <;> cases ruleSubject b <;>
    cases ruleMessage b <;> cases ruleEmail b <;> simp

theorem clientAccepts_iff_rules (b : ContactBody) :
    clientAccepts b = true ↔ ruleAllPresent b = true ∧ ruleEmail b = true := by
  rcases b with ⟨_ | name, _ | email, _ | subject, _ | message⟩
  case mk.some.some.some.some =>
    simp only [clientAccepts, clientValidation, ruleAllPresent, ruleEmail, falsy]
    cases name.isEmpty <;> cases email.isEmpty <;> cases subject.isEmpty <;>
      cases message.isEmpty <;> cases isValidEmail email <;> simp
  all_goals simp [clientAccepts, clientValidation, ruleAllPresent, ruleEmail, falsy]

theorem contactHandler_rejects_iff (env : ProcessEnv) (nodemailer : Nodemailer)
    (b : ContactBody) :
    (∃ msg, contactHandler env nodemailer (some b) = ⟨⟨400, ResponseBody.error msg⟩, []⟩) ↔
      serverAccepts b = false := by
  constructor
  · rintro ⟨msg, h⟩
    cases hv : serverAccepts b with
    | false => rfl
    | true =>
      have hh := contactHandler_accepted_head env nodemailer b hv
      rw [h] at hh
      simp at hh
  · intro hv
    obtain ⟨msg, hmsg⟩ := firstFailure_of_not_accepts b hv
    exact ⟨msg, contactHandler_of_firstFailure env nodemailer b msg hmsg⟩

theorem submitTry_no_button (network : FetchResult) :
    ∀ ev ∈ (match submitTry network with
      | (log, none) => log
      | (log, some e) => log ++ submitCatch e), writesButton ev = false ∧ isFetch ev = false := by
  intro ev hev
  rcases network with e | ⟨ok, e | _ | ⟨success, message, error⟩⟩
  · simp [submitTry, submitCatch] at hev
    rcases hev with rfl | rfl <;> exact ⟨rfl, rfl⟩
  · simp [submitTry, submitCatch] at hev
    rcases hev with rfl | rfl <;> exact ⟨rfl, rfl⟩
  · simp [submitTry, submitCatch] at hev
    rcases hev with rfl | rfl <;> exact ⟨rfl, rfl⟩
  · simp only [submitTry] at hev
    split_ifs at hev
    · simp at hev
      rcases hev with rfl | rfl | rfl <;> exact ⟨rfl, rfl⟩
    · simp at hev
      subst hev
      exact ⟨rfl, rfl⟩

theorem buttonAfter_no_write (button : SubmitButton) (log : List ClientEvent)
    (h : ∀ ev ∈ log, writesButton ev = false) : buttonAfter button log = button := by
  unfold buttonAfter
  induction log with
  | nil => rfl
  | cons ev rest ih =>
    have hev := h ev (List.mem_cons_self _ _)
    have hstep : buttonStep button ev = button := by
      cases ev <;> first | rfl | (simp [writesButton] at hev)
    rw [List.foldl_cons, hstep]
    exact ih (fun e he => h e (List.mem_cons_of_mem _ he))

theorem submitHandler_rejected (form : ContactBody) (button : SubmitButton)
    (network : FetchResult) (h : clientAccepts form = false) :
    ∃ notice, submitHandler form button network =
      [ClientEvent.showNotification (some notice) "error"] := by
  unfold clientAccepts at h
  unfold submitHandler
  cases hc : clientValidation form with
  | none => rw [hc] at h; exact absurd h (by decide)
  | some notice => exact ⟨notice, rfl⟩

theorem submitHandler_accepted (form : ContactBody) (button : SubmitButton)
    (network : FetchResult) (h : clientAccepts form = true) :
    submitHandler form button network =
      [ClientEvent.setInnerHTML (utf16 "<i class=\"fas fa-spinner fa-spin\"></i> Sending..."),
       ClientEvent.setDisabled true,
       ClientEvent.fetch form] ++
      (match submitTry network with
        | (log, none) => log
        | (log, some e) => log ++ submitCatch e) ++
      [ClientEvent.setInnerHTML button.innerHTML, ClientEvent.setDisabled false] := by
  unfold clientAccepts at h
  unfold submitHandler
  cases hc : clientValidation form with
  | none => rfl
  | some notice => rw [hc] at h; simp at h

/-- A submission the client lets through and the server rejects: the fields
are present and the email is well-formed, the name, subject and message are
too short. -/
theorem client_server_rules_differ_counterexample :
    clientAccepts shortContactData = true ∧
    (∃ ev ∈ submitHandler shortContactData sampleButton (FetchResult.rejected providerError),
      isFetch ev = true) ∧
    serverAccepts shortContactData = false ∧
    (contactHandler sampleEnv workingMailer (some shortContactData)).response =
      ⟨400, ResponseBody.error "Name must be at least 2 characters long"⟩ :=
  ⟨by decide, ⟨ClientEvent.fetch shortContactData, by simp [submitHandler, clientValidation,
      shortContactData, show isValidEmail (utf16 "test@example.com") = true by decide,
      show (utf16 "T").isEmpty = false by decide,
      show (utf16 "Hi").isEmpty = false by decide,
      show (utf16 "test@example.com").isEmpty = false by decide], rfl⟩,
    by decide, by decide⟩

/-- Claim C8, amended: the submit handler of the client applies the presence
rule and the email rule, the same as the server's, and no length rule; the
server applies all five.  So the server accepts a submission exactly when the
client accepts it and the name has at least 2, the subject at least 5 and the
message at least 10 characters, and the client sends every submission the
server accepts. -/
theorem client_checks_presence_and_email (env : ProcessEnv) (nodemailer : Nodemailer)
    (button : SubmitButton) (network : FetchResult) (b : ContactBody) :
    ((∃ ev ∈ submitHandler b button network, isFetch ev = true) ↔
      ruleAllPresent b = true ∧ ruleEmail b = true) ∧
    ((¬ ∃ msg, contactHandler env nodemailer (some b) = ⟨⟨400, ResponseBody.error msg⟩, []⟩) ↔
      ruleAllPresent b = true ∧ ruleName b = true ∧ ruleSubject b = true ∧
        ruleMessage b = true ∧ ruleEmail b = true) ∧
    (serverAccepts b = true ↔
      clientAccepts b = true ∧ ruleName b = true ∧ ruleSubject b = true ∧
        ruleMessage b = true) := by
  refine ⟨?_, ?_, ?_⟩
  · rw [← clientAccepts_iff_rules]
    constructor
    · rintro ⟨ev, hev, hf⟩
      cases hc : clientAccepts b with
      | true => rfl
      | false =>
        obtain ⟨notice, hn⟩ := submitHandler_rejected b button network hc
        rw [hn] at hev
        simp only [List.mem_singleton] at hev
        subst hev
        simp [isFetch] at hf
    · intro hc
      rw [submitHandler_accepted b button network hc]
      exact ⟨ClientEvent.fetch b, by simp, rfl⟩
  · rw [contactHandler_rejects_iff, ← serverAccepts_iff_rules]
    cases serverAccepts b <;> simp
  · rw [serverAccepts_iff_rules, clientAccepts_iff_rules]
    constructor
    · rintro ⟨h1, h2, h3, h4, h5⟩
      exact ⟨⟨h1, h5⟩, h2, h3, h4⟩
    · rintro ⟨⟨h1, h5⟩, h2, h3, h4⟩
      exact ⟨h1, h2, h3, h4, h5⟩

/-! ## The email rule -/

theorem contactHandler_accepted_status (env : ProcessEnv) (nodemailer : Nodemailer)
    (b : ContactBody) (h : serverAccepts b = true) :
    (contactHandler env nodemailer (some b)).response.status = 200 ∨
      (contactHandler env nodemailer (some b)).response.status = 500 := by
  obtain ⟨name, email, subject, message, rfl⟩ := serverAccepts_fields b h
  unfold contactHandler
  rw [contactTry_accepted env nodemailer name email subject message h]
  cases createTransporter env nodemailer with
  | error e => right; rfl
  | ok t =>
    simp only
    cases t.sendMail 0 (mailOptions env name email subject message) with
    | error e => right; rfl
    | ok u =>
      simp only
      cases t.sendMail 1 (userMailOptions env name email subject message) with
      | error e => right; rfl
      | ok u => left; rfl

theorem isNonSpaceRun_of_all (a : JSString)
    (h : (!a.isEmpty && a.all (fun c => !isWhiteSpace c)) = true) : IsNonSpaceRun a := by
  simp only [Bool.and_eq_true, Bool.not_eq_true', List.all_eq_true] at h
  refine ⟨?_, fun c hc => h.2 c hc⟩
  intro hnil
  rw [hnil] at h
  exact absurd h.1 (by decide)

/-- The string `a@b@c.d` splits into non-whitespace runs around an `@` and a
`.`, as `a`, `b@c` and `d`, and both validators reject it. -/
theorem email_nonspace_runs_counterexample :
    (∃ a b c, utf16 "a@b@c.d" = a ++ codeUnit 64 :: (b ++ codeUnit 46 :: c) ∧
      IsNonSpaceRun a ∧ IsNonSpaceRun b ∧ IsNonSpaceRun c) ∧
    isValidEmail (utf16 "a@b@c.d") = false ∧
    (contactHandler sampleEnv workingMailer (some twoAtContactData)).response =
      ⟨400, ResponseBody.error "Please enter a valid email address"⟩ ∧
    clientValidation twoAtContactData = some (utf16 "Please enter a valid email address") :=
  ⟨⟨utf16 "a", utf16 "b@c", utf16 "d", by decide, isNonSpaceRun_of_all _ (by decide),
      isNonSpaceRun_of_all _ (by decide), isNonSpaceRun_of_all _ (by decide)⟩,
    by decide, by decide, by decide⟩

/-- Claim C9, amended: when the other four rules pass, the server and the
client accept the email exactly when it splits as A, `@`, B, `.`, C with A, B
and C non-empty runs of characters that are neither whitespace nor `@`. -/
theorem email_rule_shape (env : ProcessEnv) (nodemailer : Nodemailer)
    (name email subject message : JSString)
    (hn : 2 ≤ name.length) (hs : 5 ≤ subject.length) (hm : 10 ≤ message.length)
    (he : email ≠ []) :
    ((contactHandler env nodemailer
        (some ⟨some name, some email, some subject, some message⟩)).response =
      ⟨400, ResponseBody.error "Please enter a valid email address"⟩ ↔ ¬ EmailShape email) ∧
    (serverAccepts ⟨some name, some email, some subject, some message⟩ = true ↔
      EmailShape email) ∧
    (clientValidation ⟨some name, some email, some subject, some message⟩ = none ↔
      EmailShape email) ∧
    (isValidEmail email = true ↔ EmailShape email) := by
  have hacc := serverAccepts_strings name email subject message
  have hne : name.isEmpty = false := by cases name <;> simp_all
  have hee : email.isEmpty = false := by cases email <;> simp_all
  have hse : subject.isEmpty = false := by cases subject <;> simp_all
  have hme : message.isEmpty = false := by cases message <;> simp_all
  refine ⟨?_, ?_, ?_, isValidEmail_iff email⟩
  · rw [← isValidEmail_iff]
    constructor
    · intro h hv
      have hv' := hacc.mpr ⟨hn, hs, hm, hv⟩
      rcases contactHandler_accepted_status env nodemailer _ hv' with h2 | h5
      · rw [h] at h2; exact absurd h2 (by decide)
      · rw [h] at h5; exact absurd h5 (by decide)
    · intro hv
      have hf : firstFailure specRules ⟨some name, some email, some subject, some message⟩ =
          some "Please enter a valid email address" := by
        rw [firstFailure_strings]
        simp [hne, hee, hse, hme, Nat.not_lt.mpr hn, Nat.not_lt.mpr hs, Nat.not_lt.mpr hm, hv]
      rw [contactHandler_of_firstFailure env nodemailer _ _ hf]
  · rw [hacc, ← isValidEmail_iff]
    constructor
    · intro h; exact h.2.2.2
    · intro h; exact ⟨hn, hs, hm, h⟩
  · rw [← isValidEmail_iff]
    simp only [clientValidation, hne, hee, hse, hme, Bool.or_self, Bool.false_eq_true, if_false]
    cases isValidEmail email <;> simp

/-- The email of the backend test has the shape. -/
theorem email_rule_shape_witness : EmailShape (utf16 "test@example.com") :=
  (email_rule_shape sampleEnv workingMailer (utf16 "Test User") (utf16 "test@example.com")
    (utf16 "Test Message")
    (utf16 "This is a test message to verify the backend is working correctly.")
    (by decide) (by decide) (by decide) (by decide)).2.1.mp (by decide)

/-! ## The submit button -/

/-- Claim C10: when the client validation lets the submission through, then
for every outcome of the network call, a resolved response that is ok or not,
a body that does not parse, a `null` body or a rejected `fetch`, the run ends
with the `finally` block: the button is enabled and shows the text it had
before; in between no effect touches the button.  When the client validation
stops the submission no effect touches the button and nothing is sent. -/
theorem submit_button_restored (form : ContactBody) (button : SubmitButton)
    (network : FetchResult) :
    (clientAccepts form = true →
      buttonAfter button (submitHandler form button network) = ⟨button.innerHTML, false⟩ ∧
      ∃ middle, submitHandler form button network =
          [ClientEvent.setInnerHTML
             (utf16 "<i class=\"fas fa-spinner fa-spin\"></i> Sending..."),
           ClientEvent.setDisabled true, ClientEvent.fetch form] ++ middle ++
          [ClientEvent.setInnerHTML button.innerHTML, ClientEvent.setDisabled false] ∧
        ∀ ev ∈ middle, writesButton ev = false) ∧
    (clientAccepts form = false →
      (∀ ev ∈ submitHandler form button network, writesButton ev = false ∧ isFetch ev = false) ∧
      buttonAfter button (submitHandler form button network) = button) := by
  constructor
  · intro h
    have hrun := submitHandler_accepted form button network h
    have hmid := submitTry_no_button network
    refine ⟨?_, _, hrun, fun ev hev => (hmid ev hev).1⟩
    rw [hrun]
    unfold buttonAfter
    rw [List.foldl_append, List.foldl_append]
    have := buttonAfter_no_write
      (List.foldl buttonStep button
        [ClientEvent.setInnerHTML (utf16 "<i class=\"fas fa-spinner fa-spin\"></i> Sending..."),
         ClientEvent.setDisabled true, ClientEvent.fetch form])
      _ (fun ev hev => (hmid ev hev).1)
    unfold buttonAfter at this
    rw [this]
    rfl
  · intro h
    obtain ⟨notice, hn⟩ := submitHandler_rejected form button network h
    rw [hn]
    refine ⟨?_, rfl⟩
    intro ev hev
    simp only [List.mem_singleton] at hev
    subst hev
    exact ⟨rfl, rfl⟩

/-- The valid submission of the backend test with a `fetch` that rejects: the
button ends enabled with its text. -/
theorem submit_button_restored_witness :
    buttonAfter sampleButton
        (submitHandler validContactData sampleButton (FetchResult.rejected providerError)) =
      ⟨utf16 "Send Message", false⟩ :=
  ((submit_button_restored validContactData sampleButton
    (FetchResult.rejected providerError)).1 (by decide)).1

/-! ## The email pattern, character by character -/

theorem notSpaceNorAt_iff (c : CodeUnit) :
    notSpaceNorAt c = true ↔ isWhiteSpace c = false ∧ c ≠ codeUnit 64 := by
  unfold notSpaceNorAt
  have h := isAt_iff c
  unfold isAt at h
  cases hw : isWhiteSpace c <;> cases he : (c.val == 64)
  · simp only [Bool.or_self, Bool.not_false, true_and, true_iff]
    intro hc
    rw [he] at h
    exact absurd (h.mpr hc) (by decide)
  · simp only [Bool.or_true, Bool.not_true, Bool.false_eq_true, true_and, false_iff, not_not]
    rw [he] at h
    exact h.mp rfl
  · simp
  · simp

theorem isLabel_iff (a : JSString) :
    IsLabel a ↔ a ≠ [] ∧ (∀ c ∈ a, isWhiteSpace c = false) ∧ codeUnit 64 ∉ a := by
  unfold IsLabel
  constructor
  · rintro ⟨hne, hall⟩
    refine ⟨hne, fun c hc => ((notSpaceNorAt_iff c).mp (hall c hc)).1, ?_⟩
    intro hmem
    exact ((notSpaceNorAt_iff _).mp (hall _ hmem)).2 rfl
  · rintro ⟨hne, hws, hat⟩
    refine ⟨hne, fun c hc => (notSpaceNorAt_iff c).mpr ⟨hws c hc, ?_⟩⟩
    rintro rfl
    exact hat hc

/-- The strings the email pattern accepts: no whitespace, exactly one `@`
with something before it, and after it a `.` that is neither the first nor the
last character of that part. -/
theorem isValidEmail_iff_parts (s : JSString) :
    isValidEmail s = true ↔
      (∀ c ∈ s, isWhiteSpace c = false) ∧ s.count (codeUnit 64) = 1 ∧
        ∃ a d, s = a ++ codeUnit 64 :: d ∧ a ≠ [] ∧
          ∃ i, 0 < i ∧ i + 1 < d.length ∧ d[i]? = some (codeUnit 46) := by
  rw [isValidEmail_iff]
  constructor
  · rintro ⟨a, b, c, rfl, ha, hb, hc⟩
    obtain ⟨hane, haws, haat⟩ := (isLabel_iff a).mp ha
    obtain ⟨hbne, hbws, hbat⟩ := (isLabel_iff b).mp hb
    obtain ⟨hcne, hcws, hcat⟩ := (isLabel_iff c).mp hc
    refine ⟨?_, ?_, a, b ++ codeUnit 46 :: c, rfl, hane, b.length, ?_, ?_, ?_⟩
    · intro x hx
      simp only [List.mem_append, List.mem_cons] at hx
      rcases hx with hx | rfl | hx | rfl | hx
      · exact haws x hx
      · decide
      · exact hbws x hx
      · decide
      · exact hcws x hx
    · simp only [List.count_append, List.count_cons, List.count_eq_zero.mpr haat,
        List.count_eq_zero.mpr hbat, List.count_eq_zero.mpr hcat]
      decide
    · exact List.length_pos.mpr hbne
    · have := List.length_pos.mpr hcne
      simp only [List.length_append, List.length_cons]
      omega
    · rw [List.getElem?_append_right (Nat.le_refl _)]
      simp
  · rintro ⟨hws, hcount, a, d, rfl, hane, i, hi0, hi1, hdot⟩
    have hcnt : List.count (codeUnit 64) a + 1 + List.count (codeUnit 64) d = 1 := by
      have := hcount
      simp only [List.count_append, List.count_cons, beq_self_eq_true, if_true] at this
      omega
    have haat : codeUnit 64 ∉ a := List.count_eq_zero.mp (by omega)
    have hdat : codeUnit 64 ∉ d := List.count_eq_zero.mp (by omega)
    have hilt : i < d.length := by omega
    have hdi : d[i] = codeUnit 46 := by
      have := List.getElem?_eq_some.mp hdot
      obtain ⟨_, h⟩ := this
      exact h
    have hsplit : d = d.take i ++ codeUnit 46 :: d.drop (i + 1) := by
      have h1 := List.take_append_drop i d
      rw [List.drop_eq_getElem_cons hilt, hdi] at h1
      exact h1.symm
    have hwsd : ∀ c ∈ d, isWhiteSpace c = false := fun c hc =>
      hws c (by simp [hc])
    refine ⟨a, d.take i, d.drop (i + 1), ?_, ?_, ?_, ?_⟩
    · rw [← hsplit]
    · exact (isLabel_iff a).mpr ⟨hane, fun c hc => hws c (by simp [hc]), haat⟩
    · refine (isLabel_iff _).mpr ⟨?_, fun c hc => hwsd c (List.mem_of_mem_take hc),
        fun hc => hdat (List.mem_of_mem_take hc)⟩
      intro hnil
      have := congrArg List.length hnil
      simp only [List.length_take, List.length_nil] at this
      omega
    · refine (isLabel_iff _).mpr ⟨?_, fun c hc => hwsd c (List.mem_of_mem_drop hc),
        fun hc => hdat (List.mem_of_mem_drop hc)⟩
      intro hnil
      have := congrArg List.length hnil
      simp only [List.length_drop, List.length_nil] at this
      omega

/-- Claim C15: the pattern of `emailRegex`, the same in the server's test and
in the client's `isValidEmail`, accepts a string exactly when the string has
no whitespace character, exactly one `@`, a non-empty part before the `@`, and
after the `@` a part containing a `.` that is neither its first nor its last
character; `a@b@c.d`, `a@b.`, `a@.b` and `a b@c.d` are rejected, `a@.b.c` and
`a@b.c` accepted. -/
theorem email_pattern_characterised :
    (∀ s : JSString, isValidEmail s = true ↔
      (∀ c ∈ s, isWhiteSpace c = false) ∧ s.count (codeUnit 64) = 1 ∧
        ∃ a d, s = a ++ codeUnit 64 :: d ∧ a ≠ [] ∧
          ∃ i, 0 < i ∧ i + 1 < d.length ∧ d[i]? = some (codeUnit 46)) ∧
    (∀ s : JSString, regexTest emailRegex s = isValidEmail s) ∧
    isValidEmail (utf16 "a@b@c.d") = false ∧
    isValidEmail (utf16 "a@b.") = false ∧
    isValidEmail (utf16 "a@.b") = false ∧
    isValidEmail (utf16 "a b@c.d") = false ∧
    isValidEmail (utf16 "a@.b.c") = true ∧
    isValidEmail (utf16 "a@b.c") = true :=
  ⟨isValidEmail_iff_parts, fun _ => rfl, by decide, by decide, by decide, by decide, by decide,
    by decide⟩

/-! ## The two mails -/

/-- The messages a run hands to `sendMail` are the owner notification and then
the confirmation, or an initial part of that sequence. -/
theorem mailsSent_initial (env : ProcessEnv) (nodemailer : Nodemailer)
    (name email subject message : JSString) :
    List.IsPrefix
      (mailsSent (contactHandler env nodemailer
        (some ⟨some name, some email, some subject, some message⟩)).trace)
      [mailOptions env name email subject message,
       userMailOptions env name email subject message] := by
  cases hv : serverAccepts ⟨some name, some email, some subject, some message⟩ with
  | false =>
    obtain ⟨msg, hmsg⟩ := firstFailure_of_not_accepts _ hv
    rw [contactHandler_of_firstFailure env nodemailer _ msg hmsg]
    exact ⟨_, rfl⟩
  | true =>
    unfold contactHandler
    rw [contactTry_accepted env nodemailer name email subject message hv]
    cases createTransporter env nodemailer with
    | error e => exact ⟨_, rfl⟩
    | ok t =>
      simp only
      cases t.sendMail 0 (mailOptions env name email subject message) with
      | error e => exact ⟨[userMailOptions env name email subject message], rfl⟩
      | ok u =>
        simp only
        cases t.sendMail 1 (userMailOptions env name email subject message) with
        | error e => exact ⟨[], rfl⟩
        | ok u => exact ⟨[], rfl⟩

theorem isInfix_append_right_of {α : Type} {x l : List α} (h : List.IsInfix x l) (r : List α) :
    List.IsInfix x (l ++ r) :=
  List.IsInfix.trans h (List.prefix_append l r).isInfix

theorem isInfix_self_append {α : Type} (a x : List α) : List.IsInfix x (a ++ x) :=
  (List.suffix_append a x).isInfix

theorem replaceNewlines_append (a b : JSString) :
    replaceNewlines (a ++ b) = replaceNewlines a ++ replaceNewlines b := by
  simp [replaceNewlines]

theorem replaceNewlines_of_not_mem (x : JSString) (h : codeUnit 10 ∉ x) :
    replaceNewlines x = x := by
  induction x with
  | nil => rfl
  | cons c rest ih =>
    have hc : (c.val == 10) = false := by
      cases hb : (c.val == 10) with
      | false => rfl
      | true =>
        exfalso
        apply h
        have : c = codeUnit 10 := by
          unfold codeUnit
          rw [Fin.ext_iff]
          simpa using hb
        rw [this]
        exact List.mem_cons_self _ _
    have hrest : codeUnit 10 ∉ rest := fun hm => h (List.mem_cons_of_mem _ hm)
    have := ih hrest
    unfold replaceNewlines at this ⊢
    simp only [List.flatMap_cons, hc, this]
    rfl

theorem replaceNewlines_newline (a b : JSString) :
    replaceNewlines (a ++ codeUnit 10 :: b) =
      replaceNewlines a ++ utf16 "<br>" ++ replaceNewlines b := by
  rw [replaceNewlines_append, List.append_assoc]
  congr 1

/-- A part of the message that holds no line break is a part of the message
after the replacement of line breaks. -/
theorem isInfix_replaceNewlines (x message : JSString) (hx : codeUnit 10 ∉ x)
    (h : List.IsInfix x message) : List.IsInfix x (replaceNewlines message) := by
  obtain ⟨pre, post, rfl⟩ := h
  rw [replaceNewlines_append, replaceNewlines_append, replaceNewlines_of_not_mem x hx]
  exact List.infix_append _ _ _

theorem mailOptionsHtml_infix (name email subject message : JSString) :
    List.IsInfix name (mailOptionsHtml name email subject message) ∧
    List.IsInfix email (mailOptionsHtml name email subject message) ∧
    List.IsInfix subject (mailOptionsHtml name email subject message) ∧
    List.IsInfix (replaceNewlines message) (mailOptionsHtml name email subject message) := by
  unfold mailOptionsHtml
  refine ⟨?_, ?_, ?_, ?_⟩ <;>
    with_reducible repeat (first | exact isInfix_self_append _ _ | apply isInfix_append_right_of)

theorem userMailOptionsHtml_infix (name subject message : JSString) :
    List.IsInfix (replaceNewlines message) (userMailOptionsHtml name subject message) := by
  unfold userMailOptionsHtml
  with_reducible repeat (first | exact isInfix_self_append _ _ | apply isInfix_append_right_of)

theorem mailOptionsText_infix (name email subject message : JSString) :
    List.IsInfix message (mailOptionsText name email subject message) := by
  unfold mailOptionsText
  with_reducible repeat (first | exact isInfix_self_append _ _ | apply isInfix_append_right_of)

theorem userMailOptionsText_infix (name subject message : JSString) :
    List.IsInfix message (userMailOptionsText name subject message) := by
  unfold userMailOptionsText
  with_reducible repeat (first | exact isInfix_self_append _ _ | apply isInfix_append_right_of)

theorem templates_ne_nil (name email subject message : JSString) :
    mailOptionsHtml name email subject message ≠ [] ∧
    mailOptionsText name email subject message ≠ [] ∧
    userMailOptionsHtml name subject message ≠ [] ∧
    userMailOptionsText name subject message ≠ [] := by
  have h : utf16 "            " ≠ [] := by decide
  exact ⟨List.append_ne_nil_of_right_ne_nil _ h, List.append_ne_nil_of_right_ne_nil _ h,
    List.append_ne_nil_of_right_ne_nil _ h, List.append_ne_nil_of_right_ne_nil _ h⟩

/-- Claim C11: the messages handed to `sendMail` are the owner notification,
with `to` the configured `EMAIL_USER`, `replyTo` the submitter's email and the
subject `Portfolio Contact: ` followed by the submitted subject, and then the
confirmation, with `to` the submitter's email and the subject
`Thank you for contacting me!`; each has an html and a text body; when both
sends succeed they are exactly these two, in this order. -/
theorem mails_addressed_as_specified (env : ProcessEnv) (nodemailer : Nodemailer)
    (name email subject message : JSString) :
    List.IsPrefix
      (mailsSent (contactHandler env nodemailer
        (some ⟨some name, some email, some subject, some message⟩)).trace)
      [mailOptions env name email subject message,
       userMailOptions env name email subject message] ∧
    (∀ t, serverAccepts ⟨some name, some email, some subject, some message⟩ = true →
      createTransporter env nodemailer = Except.ok t →
      t.sendMail 0 (mailOptions env name email subject message) = Except.ok () →
      t.sendMail 1 (userMailOptions env name email subject message) = Except.ok () →
      mailsSent (contactHandler env nodemailer
          (some ⟨some name, some email, some subject, some message⟩)).trace =
        [mailOptions env name email subject message,
         userMailOptions env name email subject message]) ∧
    (mailOptions env name email subject message).toAddr = env.EMAIL_USER ∧
    (mailOptions env name email subject message).replyTo = some email ∧
    (mailOptions env name email subject message).subject =
      utf16 "Portfolio Contact: " ++ subject ∧
    (userMailOptions env name email subject message).toAddr = some email ∧
    (userMailOptions env name email subject message).subject =
      utf16 "Thank you for contacting me!" ∧
    (mailOptions env name email subject message).html ≠ [] ∧
    (mailOptions env name email subject message).text ≠ [] ∧
    (userMailOptions env name email subject message).html ≠ [] ∧
    (userMailOptions env name email subject message).text ≠ [] := by
  obtain ⟨h1, h2, h3, h4⟩ := templates_ne_nil name email subject message
  refine ⟨mailsSent_initial env nodemailer name email subject message, ?_, rfl, rfl, rfl, rfl, rfl,
    h1, h2, h3, h4⟩
  intro t hv ht hs1 hs2
  rw [contactHandler_both_accepted env nodemailer name email subject message t hv ht hs1 hs2]
  rfl

/-- The valid submission of the backend test with a working provider: the two
mails sent. -/
theorem mails_addressed_as_specified_witness :
    mailsSent (contactHandler sampleEnv workingMailer (some validContactData)).trace =
      [mailOptions sampleEnv (utf16 "Test User") (utf16 "test@example.com")
         (utf16 "Test Message")
         (utf16 "This is a test message to verify the backend is working correctly."),
       userMailOptions sampleEnv (utf16 "Test User") (utf16 "test@example.com")
         (utf16 "Test Message")
         (utf16 "This is a test message to verify the backend is working correctly.")] :=
  (mails_addressed_as_specified sampleEnv workingMailer (utf16 "Test User")
    (utf16 "test@example.com") (utf16 "Test Message")
    (utf16 "This is a test message to verify the backend is working correctly.")).2.1
    ⟨fun _ _ => Except.ok ()⟩ (by decide) rfl rfl rfl

/-- Claim C16: the html bodies of both mails hold the submitted fields with no
escaping: the owner notification's html contains the name, the email and the
subject verbatim, both html bodies contain the message with each line break
replaced by `<br>` and nothing else changed, so markup in a field stays
markup in the body; the text bodies contain the message unchanged; and these
are the bodies of the mails handed to `sendMail`. -/
theorem html_bodies_unescaped (env : ProcessEnv) (nodemailer : Nodemailer)
    (name email subject message : JSString) :
    List.IsInfix name (mailOptions env name email subject message).html ∧
    List.IsInfix email (mailOptions env name email subject message).html ∧
    List.IsInfix subject (mailOptions env name email subject message).html ∧
    List.IsInfix (replaceNewlines message) (mailOptions env name email subject message).html ∧
    List.IsInfix (replaceNewlines message)
      (userMailOptions env name email subject message).html ∧
    List.IsInfix message (mailOptions env name email subject message).text ∧
    List.IsInfix message (userMailOptions env name email subject message).text ∧
    (∀ a b : JSString, replaceNewlines (a ++ codeUnit 10 :: b) =
      replaceNewlines a ++ utf16 "<br>" ++ replaceNewlines b) ∧
    (∀ x : JSString, codeUnit 10 ∉ x → replaceNewlines x = x) ∧
    (∀ x : JSString, codeUnit 10 ∉ x → List.IsInfix x message →
      List.IsInfix x (mailOptions env name email subject message).html ∧
      List.IsInfix x (userMailOptions env name email subject message).html) ∧
    List.IsPrefix
      (mailsSent (contactHandler env nodemailer
        (some ⟨some name, some email, some subject, some message⟩)).trace)
      [mailOptions env name email subject message,
       userMailOptions env name email subject message] := by
  obtain ⟨h1, h2, h3, h4⟩ := mailOptionsHtml_infix name email subject message
  have h5 := userMailOptionsHtml_infix name subject message
  refine ⟨h1, h2, h3, h4, h5, mailOptionsText_infix name email subject message,
    userMailOptionsText_infix name subject message, replaceNewlines_newline,
    replaceNewlines_of_not_mem, ?_, mailsSent_initial env nodemailer name email subject message⟩
  intro x hx hinf
  have := isInfix_replaceNewlines x message hx hinf
  exact ⟨List.IsInfix.trans this h4, List.IsInfix.trans this h5⟩

/-- A message with bold markup: the markup is in both html bodies as it was
typed. -/
theorem html_bodies_unescaped_witness :
    List.IsInfix (utf16 "<b>Hello</b>")
        (mailOptions sampleEnv (utf16 "Test User") (utf16 "test@example.com")
          (utf16 "Test Message") markupMessage).html ∧
      List.IsInfix (utf16 "<b>Hello</b>")
        (userMailOptions sampleEnv (utf16 "Test User") (utf16 "test@example.com")
          (utf16 "Test Message") markupMessage).html :=
  (html_bodies_unescaped sampleEnv workingMailer (utf16 "Test User") (utf16 "test@example.com")
    (utf16 "Test Message") markupMessage).2.2.2.2.2.2.2.2.2.1 (utf16 "<b>Hello</b>")
    (by decide) ⟨[], utf16 "\nsecond line", by decide⟩

/-! ## Routing -/

theorem app_routes (express : Express) (opensAt : Nat → Nat) (env : ProcessEnv)
    (table : RateLimitTable) (req : HttpRequest)
    (hpre : runMiddleware [express.helmet, express.cors, express.json, express.urlencoded] req =
      MiddlewareResult.next) :
    app express opensAt env table req =
      if express.routeMatches "POST" "/api/contact" req then
        ⟨Reply.json
            (contactRoute opensAt env table
              ⟨req.ip, req.now, req.body, req.nodemailer⟩).2.response,
          (contactRoute opensAt env table ⟨req.ip, req.now, req.body, req.nodemailer⟩).2.trace,
          (contactRoute opensAt env table ⟨req.ip, req.now, req.body, req.nodemailer⟩).1⟩
      else if express.routeMatches "GET" "/api/health" req then
        ⟨Reply.json (healthResponse req.now), [], table⟩
      else
        match express.static req with
        | MiddlewareResult.respond status content => ⟨Reply.sent status content, [], table⟩
        | MiddlewareResult.fail e => errorHandler table e
        | MiddlewareResult.next => ⟨Reply.json notFound, [], table⟩ := by
  unfold app
  rw [hpre]

/-- A `GET` for a file of the served directory matches neither route and is
answered by `express.static` with the file, not with the 404 body. -/
theorem other_requests_not_found_counterexample :
    (plainRequest "GET" "/script.js" 0).method = "GET" ∧
    (plainRequest "GET" "/script.js" 0).path = "/script.js" ∧
    siteExpress.routeMatches "POST" "/api/contact" (plainRequest "GET" "/script.js" 0) = false ∧
    siteExpress.routeMatches "GET" "/api/health" (plainRequest "GET" "/script.js" 0) = false ∧
    (app siteExpress opensAtRequest sampleEnv emptyTable
        (plainRequest "GET" "/script.js" 0)).reply = Reply.sent 200 (utf16 "// DOM Elements") ∧
    (app siteExpress opensAtRequest sampleEnv emptyTable
        (plainRequest "GET" "/script.js" 0)).reply ≠
      Reply.json ⟨404, ResponseBody.error "Endpoint not found"⟩ := by
  decide

/-- Claim C12, amended: a request that the middleware before the routes pass
on, that matches neither `POST /api/contact` nor `GET /api/health`, and that
`express.static('.')` does not answer, is answered 404 with the body
`Endpoint not found`, with no effect and the limiter untouched; a request of
this kind that `express.static` answers gets that answer, and an error raised
by a middleware is answered 500 with `Internal server error`. -/
theorem unserved_requests_not_found (express : Express) (opensAt : Nat → Nat)
    (env : ProcessEnv) (table : RateLimitTable) (req : HttpRequest)
    (hpre : runMiddleware [express.helmet, express.cors, express.json, express.urlencoded] req =
      MiddlewareResult.next)
    (hcontact : express.routeMatches "POST" "/api/contact" req = false)
    (hhealth : express.routeMatches "GET" "/api/health" req = false) :
    (express.static req = MiddlewareResult.next →
      app express opensAt env table req =
        ⟨Reply.json ⟨404, ResponseBody.error "Endpoint not found"⟩, [], table⟩) ∧
    (∀ status content, express.static req = MiddlewareResult.respond status content →
      app express opensAt env table req = ⟨Reply.sent status content, [], table⟩) ∧
    (∀ e, express.static req = MiddlewareResult.fail e →
      app express opensAt env table req =
        ⟨Reply.json ⟨500, ResponseBody.error "Internal server error"⟩,
          [Event.consoleError "Server error:" e], table⟩) := by
  rw [app_routes express opensAt env table req hpre]
  simp only [hcontact, hhealth, Bool.false_eq_true, if_false]
  refine ⟨?_, ?_, ?_⟩
  · intro h; rw [h]; rfl
  · intro status content h; rw [h]
  · intro e h; rw [h]; rfl

/-- A `DELETE` of a path nothing answers. -/
theorem unserved_requests_not_found_witness :
    (app siteExpress opensAtRequest sampleEnv emptyTable
        (plainRequest "DELETE" "/api/contact" 0)).reply =
      Reply.json ⟨404, ResponseBody.error "Endpoint not found"⟩ :=
  congrArg AppOutcome.reply
    ((unserved_requests_not_found siteExpress opensAtRequest sampleEnv emptyTable
      (plainRequest "DELETE" "/api/contact" 0) rfl (by decide) (by decide)).1 rfl)

/-! ## The health route -/

theorem civilFromDays_month (days : Nat) :
    1 ≤ (civilFromDays days).2.1 ∧ (civilFromDays days).2.1 ≤ 12 := by
  simp only [civilFromDays]
  split_ifs <;> omega

theorem civilFromDays_day (days : Nat) :
    1 ≤ (civilFromDays days).2.2 ∧ (civilFromDays days).2.2 ≤ 31 := by
  simp only [civilFromDays]
  omega

theorem civilFromDays_year (days : Nat) (h : days < 2932897) :
    (civilFromDays days).1 ≤ 9999 := by
  simp only [civilFromDays]
  split_ifs <;> omega

/-- Before the year 10000 the timestamp has the form `YYYY-MM-DDTHH:mm:ss.sssZ`
with every field in its range and the time of day that of the instant. -/
theorem toISOString_shape (now : Nat) (h : now < 253402300800000) :
    ∃ y m d hh mm ss ms, y ≤ 9999 ∧ 1 ≤ m ∧ m ≤ 12 ∧ 1 ≤ d ∧ d ≤ 31 ∧ hh < 24 ∧ mm < 60 ∧
      ss < 60 ∧ ms < 1000 ∧
      now % 86400000 = hh * 3600000 + mm * 60000 + ss * 1000 + ms ∧
      toISOString now =
        String.mk (pad4 y ++ ['-'] ++ pad2 m ++ ['-'] ++ pad2 d ++ ['T'] ++ pad2 hh ++ [':'] ++
          pad2 mm ++ [':'] ++ pad2 ss ++ ['.'] ++ pad3 ms ++ ['Z']) ∧
      (toISOString now).length = 24 := by
  have hy := civilFromDays_year (now / 86400000) (by omega)
  have hm := civilFromDays_month (now / 86400000)
  have hd := civilFromDays_day (now / 86400000)
  have hstr : toISOString now =
      String.mk (pad4 (civilFromDays (now / 86400000)).1 ++ ['-'] ++
        pad2 (civilFromDays (now / 86400000)).2.1 ++ ['-'] ++
        pad2 (civilFromDays (now / 86400000)).2.2 ++ ['T'] ++
        pad2 (now % 86400000 / 3600000) ++ [':'] ++ pad2 (now % 86400000 / 60000 % 60) ++ [':'] ++
        pad2 (now % 86400000 / 1000 % 60) ++ ['.'] ++ pad3 (now % 86400000 % 1000) ++ ['Z']) := by
    unfold toISOString
    simp only [hy, if_true]
  refine ⟨_, _, _, _, _, _, _, hy, hm.1, hm.2, hd.1, hd.2, ?_, ?_, ?_, ?_, ?_, hstr, ?_⟩
  · omega
  · omega
  · omega
  · omega
  · omega
  · rw [hstr]
    rfl

/-- Claim C13: a request that Express routes to `GET /api/health` is answered
200 with status `OK`, service `Portfolio Contact API` and the ISO rendering of
the time of the request, whatever the limiter's table holds; the run has no
effect: the table is the one it was, so no identifier's count changes, and
nothing is sent or logged. -/
theorem health_has_no_side_effects (express : Express) (opensAt : Nat → Nat)
    (env : ProcessEnv) (table : RateLimitTable) (req : HttpRequest)
    (hpre : runMiddleware [express.helmet, express.cors, express.json, express.urlencoded] req =
      MiddlewareResult.next)
    (hcontact : express.routeMatches "POST" "/api/contact" req = false)
    (hhealth : express.routeMatches "GET" "/api/health" req = true) :
    (app express opensAt env table req).reply =
      Reply.json ⟨200, ResponseBody.health "OK" (toISOString req.now) "Portfolio Contact API"⟩ ∧
    (app express opensAt env table req).trace = [] ∧
    (app express opensAt env table req).table = table ∧
    (∀ identifier t,
      currentCount contactLimiterOptions (app express opensAt env table req).table identifier t =
        currentCount contactLimiterOptions table identifier t) ∧
    (req.now < 253402300800000 →
      ∃ y m d hh mm ss ms, y ≤ 9999 ∧ 1 ≤ m ∧ m ≤ 12 ∧ 1 ≤ d ∧ d ≤ 31 ∧ hh < 24 ∧ mm < 60 ∧
        ss < 60 ∧ ms < 1000 ∧
        req.now % 86400000 = hh * 3600000 + mm * 60000 + ss * 1000 + ms ∧
        toISOString req.now =
          String.mk (pad4 y ++ ['-'] ++ pad2 m ++ ['-'] ++ pad2 d ++ ['T'] ++ pad2 hh ++ [':'] ++
            pad2 mm ++ [':'] ++ pad2 ss ++ ['.'] ++ pad3 ms ++ ['Z']) ∧
        (toISOString req.now).length = 24) := by
  have happ : app express opensAt env table req =
      ⟨Reply.json (healthResponse req.now), [], table⟩ := by
    rw [app_routes express opensAt env table req hpre]
    simp only [hcontact, hhealth, Bool.false_eq_true, if_false, if_true]
  refine ⟨?_, ?_, ?_, ?_, toISOString_shape req.now⟩
  · rw [happ]; rfl
  · rw [happ]
  · rw [happ]
  · intro identifier t; rw [happ]

/-- A health check by a client that has used up its quota of the contact
route, on 14 November 2023: answered 200 with the timestamp, the count still
5. -/
theorem health_has_no_side_effects_witness :
    (app siteExpress opensAtRequest sampleEnv exhaustedTable
        (plainRequest "GET" "/api/health" 1700000000000)).reply =
      Reply.json
        ⟨200, ResponseBody.health "OK" "2023-11-14T22:13:20.000Z" "Portfolio Contact API"⟩ ∧
    currentCount contactLimiterOptions
      (app siteExpress opensAtRequest sampleEnv exhaustedTable
        (plainRequest "GET" "/api/health" 1700000000000)).table "203.0.113.7" 0 = 5 :=
  have h := health_has_no_side_effects siteExpress opensAtRequest sampleEnv exhaustedTable
    (plainRequest "GET" "/api/health" 1700000000000) rfl (by decide) (by decide)
  ⟨h.1.trans (by decide), (h.2.2.2.1 "203.0.113.7" 0).trans (by decide)⟩

/-! ## The burst at a window boundary -/

theorem admittedCount_cons (opensAt : Nat → Nat) (p : Arrival → Bool) (table : RateLimitTable)
    (a : Arrival) (rest : List Arrival) :
    admittedCount opensAt p table (a :: rest) =
      (if p a && (rateLimit contactLimiterOptions opensAt table a.ip a.now).2 then 1 else 0) +
        admittedCount opensAt p
          (rateLimit contactLimiterOptions opensAt table a.ip a.now).1 rest := rfl

/-- The server passes a request to the handler exactly when `admittedCount`
counts it. -/
theorem contactRoute_admitted (opensAt : Nat → Nat) (env : ProcessEnv) (table : RateLimitTable)
    (a : Arrival) :
    contactRoute opensAt env table a =
      ((rateLimit contactLimiterOptions opensAt table a.ip a.now).1,
        if (rateLimit contactLimiterOptions opensAt table a.ip a.now).2 then
          contactHandler env a.nodemailer a.body
        else tooManyRequests) := rfl

theorem admittedCount_none (opensAt : Nat → Nat) (p : Arrival → Bool) :
    ∀ (arrivals : List Arrival) (table : RateLimitTable),
      (∀ a ∈ arrivals, p a = false) → admittedCount opensAt p table arrivals = 0 := by
  intro arrivals
  induction arrivals with
  | nil => intro _ _; rfl
  | cons a rest ih =>
    intro table h
    rw [admittedCount_cons, h a (List.mem_cons_self _ _),
      ih _ (fun b hb => h b (List.mem_cons_of_mem _ hb))]
    rfl

theorem admittedCount_le_add (opensAt : Nat → Nat) (p q r : Arrival → Bool)
    (h : ∀ a, p a = true → q a = true ∨ r a = true) :
    ∀ (arrivals : List Arrival) (table : RateLimitTable),
      admittedCount opensAt p table arrivals ≤
        admittedCount opensAt q table arrivals + admittedCount opensAt r table arrivals := by
  intro arrivals
  induction arrivals with
  | nil => intro _; exact Nat.le_refl _
  | cons a rest ih =>
    intro table
    have hrest := ih (rateLimit contactLimiterOptions opensAt table a.ip a.now).1
    simp only [admittedCount_cons]
    cases hadm : (rateLimit contactLimiterOptions opensAt table a.ip a.now).2
    · simp only [Bool.and_false, Bool.false_eq_true, if_false]
      omega
    · cases hp : p a
      · simp only [Bool.false_and, Bool.false_eq_true, if_false]
        omega
      · rcases h a hp with hq | hr
        · simp only [hq, Bool.and_self, if_true]
          split_ifs <;> omega
        · simp only [hr, Bool.and_self, if_true]
          split_ifs <;> omega

theorem usedIn_entry (table : RateLimitTable) (identifier : String) (k c ws : Nat)
    (h : table identifier = some ⟨c, ws⟩) :
    usedIn table identifier k = if ws = k * 900000 then min c 5 else 0 := by
  simp only [usedIn, h]
  rfl

theorem usedIn_none (table : RateLimitTable) (identifier : String) (k : Nat)
    (h : table identifier = none) : usedIn table identifier k = 0 := by
  simp only [usedIn, h]

theorem inWindow_of_ip (identifier : String) (k : Nat) (a : Arrival) (h : a.ip = identifier) :
    inWindow identifier k a = decide (a.now / 900000 = k) := by
  simp only [inWindow, h, decide_True, Bool.true_and]
  rfl

/-- One step of the count for a request of the identifier, by the entry the
limiter writes. -/
theorem admittedCount_step (identifier : String) (k : Nat) (a : Arrival) (rest : List Arrival)
    (table : RateLimitTable) (c ws : Nat) (hip : a.ip = identifier)
    (ht : (rateLimit contactLimiterOptions (opensAligned contactLimiterOptions.windowMs) table
      a.ip a.now).1 identifier = some ⟨c, ws⟩)
    (hadm : (rateLimit contactLimiterOptions (opensAligned contactLimiterOptions.windowMs) table
      a.ip a.now).2 = decide (c ≤ contactLimiterOptions.max))
    (hih : admittedCount (opensAligned contactLimiterOptions.windowMs) (inWindow identifier k)
        (rateLimit contactLimiterOptions (opensAligned contactLimiterOptions.windowMs) table
          a.ip a.now).1 rest +
      usedIn (rateLimit contactLimiterOptions (opensAligned contactLimiterOptions.windowMs) table
          a.ip a.now).1 identifier k ≤ 5) :
    ∃ n, admittedCount (opensAligned contactLimiterOptions.windowMs) (inWindow identifier k)
        table (a :: rest) =
        (if a.now / 900000 = k ∧ c ≤ 5 then 1 else 0) + n ∧
      n + (if ws = k * 900000 then min c 5 else 0) ≤ 5 := by
  refine ⟨admittedCount (opensAligned contactLimiterOptions.windowMs) (inWindow identifier k)
    (rateLimit contactLimiterOptions (opensAligned contactLimiterOptions.windowMs) table
      a.ip a.now).1 rest, ?_, ?_⟩
  · rw [admittedCount_cons, inWindow_of_ip identifier k a hip, hadm]
    have h5 : contactLimiterOptions.max = 5 := rfl
    rw [h5]
    by_cases h1 : a.now / 900000 = k <;> by_cases h2 : c ≤ 5 <;> simp [h1, h2]
  · rw [usedIn_entry _ identifier k c ws ht] at hih
    exact hih

/-- With windows on the consecutive intervals of 15 minutes, the requests of
one identifier that the limiter lets through in one interval and the part of
that interval's quota already used make at most 5. -/
theorem admittedCount_window (identifier : String) (k : Nat) :
    ∀ (arrivals : List Arrival) (table : RateLimitTable) (last : Nat),
      AlignedBefore table identifier last →
      (∀ a ∈ arrivals, last ≤ a.now) →
      List.Pairwise (fun a b : Arrival => a.now ≤ b.now) arrivals →
      admittedCount (opensAligned contactLimiterOptions.windowMs) (inWindow identifier k)
          table arrivals + usedIn table identifier k ≤ 5 := by
  have hW : contactLimiterOptions.windowMs = 900000 := rfl
  intro arrivals
  induction arrivals with
  | nil =>
    intro table last _ _ _
    simp only [admittedCount, usedIn, Nat.zero_add]
    cases table identifier with
    | none => exact Nat.zero_le _
    | some w => simp only; split_ifs <;> omega
  | cons a rest ih =>
    intro table last hal hlast hsorted
    have hat : last ≤ a.now := hlast a (List.mem_cons_self _ _)
    have hrest_ge : ∀ b ∈ rest, a.now ≤ b.now := (List.pairwise_cons.mp hsorted).1
    have hsorted' := (List.pairwise_cons.mp hsorted).2
    have hopen : opensAligned contactLimiterOptions.windowMs a.now =
        a.now - a.now % 900000 := rfl
    by_cases hip : a.ip = identifier
    · subst hip
      cases hent : table a.ip with
      | none =>
        have hfresh : NoRunningWindow contactLimiterOptions table a.ip a.now := by
          intro w hw; rw [hent] at hw; cases hw
        obtain ⟨ht', hadm⟩ := rateLimit_fresh contactLimiterOptions
          (opensAligned contactLimiterOptions.windowMs) table a.ip a.now hfresh
        rw [hopen] at ht'
        have hal' : AlignedBefore
            (rateLimit contactLimiterOptions (opensAligned contactLimiterOptions.windowMs) table
              a.ip a.now).1 a.ip a.now := by
          intro w hw
          rw [ht'] at hw
          cases hw
          rw [hW]
          constructor <;> simp only <;> omega
        obtain ⟨n, hn, hbound⟩ := admittedCount_step a.ip k a rest table 1 _ rfl ht' hadm
          (ih _ a.now hal' hrest_ge hsorted')
        rw [hn, usedIn_none table a.ip k hent]
        split_ifs at hbound ⊢ <;> omega
      | some w =>
        obtain ⟨c, ws⟩ := w
        obtain ⟨hmod, hle⟩ := hal ⟨c, ws⟩ hent
        rw [hW] at hmod
        simp only at hmod hle
        rw [usedIn_entry table a.ip k c ws hent]
        by_cases hlive : a.now < ws + contactLimiterOptions.windowMs
        · obtain ⟨ht', hadm⟩ := rateLimit_running contactLimiterOptions
            (opensAligned contactLimiterOptions.windowMs) table a.ip a.now c ws hent hlive
          have hal' : AlignedBefore
              (rateLimit contactLimiterOptions (opensAligned contactLimiterOptions.windowMs)
                table a.ip a.now).1 a.ip a.now := by
            intro w hw
            rw [ht'] at hw
            cases hw
            rw [hW]
            constructor <;> simp only <;> omega
          obtain ⟨n, hn, hbound⟩ := admittedCount_step a.ip k a rest table (c + 1) ws rfl
            ht' hadm (ih _ a.now hal' hrest_ge hsorted')
          rw [hn]
          rw [hW] at hlive
          split_ifs at hbound ⊢ <;> omega
        · have hfresh : NoRunningWindow contactLimiterOptions table a.ip a.now := by
            intro w hw
            rw [hent] at hw
            cases hw
            exact Nat.not_lt.mp hlive
          obtain ⟨ht', hadm⟩ := rateLimit_fresh contactLimiterOptions
            (opensAligned contactLimiterOptions.windowMs) table a.ip a.now hfresh
          rw [hopen] at ht'
          have hal' : AlignedBefore
              (rateLimit contactLimiterOptions (opensAligned contactLimiterOptions.windowMs)
                table a.ip a.now).1 a.ip a.now := by
            intro w hw
            rw [ht'] at hw
            cases hw
            rw [hW]
            constructor <;> simp only <;> omega
          rw [hW] at hlive
          by_cases hk : ws = k * 900000
          · have hnone : admittedCount (opensAligned contactLimiterOptions.windowMs)
                (inWindow a.ip k)
                (rateLimit contactLimiterOptions (opensAligned contactLimiterOptions.windowMs)
                  table a.ip a.now).1 rest = 0 := by
              apply admittedCount_none
              intro b hb
              have := hrest_ge b hb
              by_cases hb' : b.ip = a.ip
              · rw [inWindow_of_ip a.ip k b hb']
                simp only [decide_eq_false_iff_not]
                omega
              · simp [inWindow, hb']
            rw [admittedCount_cons, hnone, inWindow_of_ip a.ip k a rfl]
            have hnot : ¬ a.now / 900000 = k := by omega
            simp only [hnot, decide_False, Bool.false_and, Bool.false_eq_true, if_false, hk,
              if_true]
            omega
          · obtain ⟨n, hn, hbound⟩ := admittedCount_step a.ip k a rest table 1 _ rfl
              ht' hadm (ih _ a.now hal' hrest_ge hsorted')
            rw [hn]
            simp only [hk, if_false]
            split_ifs at hbound ⊢ <;> omega
    · have hpa : inWindow identifier k a = false := by
        simp [inWindow, hip]
      have hsame : (rateLimit contactLimiterOptions (opensAligned contactLimiterOptions.windowMs)
          table a.ip a.now).1 identifier = table identifier :=
        rateLimit_other _ _ _ _ _ _ (Ne.symm hip)
      have hal' : AlignedBefore
          (rateLimit contactLimiterOptions (opensAligned contactLimiterOptions.windowMs) table
            a.ip a.now).1 identifier a.now := by
        intro w hw
        rw [hsame] at hw
        obtain ⟨h1, h2⟩ := hal w hw
        exact ⟨h1, Nat.le_trans h2 hat⟩
      have hih := ih _ a.now hal' hrest_ge hsorted'
      have hused : usedIn (rateLimit contactLimiterOptions
          (opensAligned contactLimiterOptions.windowMs) table a.ip a.now).1 identifier k =
          usedIn table identifier k := by
        simp only [usedIn, hsame]
      rw [hused] at hih
      rw [admittedCount_cons]
      simp only [hpa, Bool.false_and, Bool.false_eq_true, if_false, Nat.zero_add]
      exact hih

theorem inSpan_window (identifier : String) (lo hi : Nat)
    (hspan : hi < lo + contactLimiterOptions.windowMs) (a : Arrival)
    (h : inSpan identifier lo hi a = true) :
    inWindow identifier (lo / contactLimiterOptions.windowMs) a = true ∨
      inWindow identifier (lo / contactLimiterOptions.windowMs + 1) a = true := by
  have hW : contactLimiterOptions.windowMs = 900000 := rfl
  rw [hW] at hspan ⊢
  simp only [inSpan, Bool.and_eq_true, decide_eq_true_eq] at h
  obtain ⟨⟨hip, hlo⟩, hhi⟩ := h
  rw [inWindow_of_ip identifier _ a hip, inWindow_of_ip identifier _ a hip]
  simp only [decide_eq_true_eq]
  omega

/-- From the start of the server, with windows on the consecutive intervals of
15 minutes, at most ten requests of one identifier pass the limiter within a
span of time shorter than 15 minutes. -/
theorem admittedCount_span_le (identifier : String) (lo hi : Nat) (arrivals : List Arrival)
    (hsorted : List.Pairwise (fun a b : Arrival => a.now ≤ b.now) arrivals)
    (hspan : hi < lo + contactLimiterOptions.windowMs) :
    admittedCount (opensAligned contactLimiterOptions.windowMs) (inSpan identifier lo hi)
      emptyTable arrivals ≤ 10 := by
  have hempty : AlignedBefore emptyTable identifier 0 := by
    intro w hw
    simp [emptyTable] at hw
  have h1 := admittedCount_window identifier (lo / contactLimiterOptions.windowMs) arrivals
    emptyTable 0 hempty (fun _ _ => Nat.zero_le _) hsorted
  have h2 := admittedCount_window identifier (lo / contactLimiterOptions.windowMs + 1) arrivals
    emptyTable 0 hempty (fun _ _ => Nat.zero_le _) hsorted
  have h3 := admittedCount_le_add (opensAligned contactLimiterOptions.windowMs)
    (inSpan identifier lo hi) (inWindow identifier (lo / contactLimiterOptions.windowMs))
    (inWindow identifier (lo / contactLimiterOptions.windowMs + 1))
    (inSpan_window identifier lo hi hspan) arrivals emptyTable
  omega

/-- With windows that start at the request that opens them, the burst
schedule gets five requests through, not ten. -/
theorem burstSchedule_request_windows :
    admittedCount opensAtRequest (inSpan "203.0.113.7" 899999 900000) emptyTable
      burstSchedule = 5 := by
  decide

/-- If the windows of the limiter were the consecutive intervals of 15 minutes
from the start of the server, five requests in the last millisecond of one
interval and five in the first millisecond of the next would all pass, and no
schedule would get more than ten through within a span shorter than 15
minutes. -/
theorem aligned_windows_burst_of_ten :
    (admittedCount (opensAligned contactLimiterOptions.windowMs)
        (inSpan "203.0.113.7" 899999 900000) emptyTable burstSchedule = 10 ∧
      900000 < 899999 + contactLimiterOptions.windowMs ∧
      List.Pairwise (fun a b : Arrival => a.now ≤ b.now) burstSchedule ∧
      (serve (opensAligned contactLimiterOptions.windowMs) sampleEnv emptyTable
          burstSchedule).map (fun o => o.response.status) =
        [200, 200, 200, 200, 200, 200, 200, 200, 200, 200]) ∧
    (∀ (identifier : String) (lo hi : Nat) (arrivals : List Arrival),
      List.Pairwise (fun a b : Arrival => a.now ≤ b.now) arrivals →
      hi < lo + contactLimiterOptions.windowMs →
      admittedCount (opensAligned contactLimiterOptions.windowMs) (inSpan identifier lo hi)
        emptyTable arrivals ≤ 10) ∧
    contactLimiterOptions.windowMs = 15 * 60 * 1000 :=
  ⟨⟨by decide, by decide, by decide, by decide⟩,
    fun identifier lo hi arrivals hsorted hspan =>
      admittedCount_span_le identifier lo hi arrivals hsorted hspan,
    rfl⟩

/-! ## The mail factory -/

/-- Claim C6, the defect: with the nodemailer package as published, the valid
submission of the backend test, which passes all five rules, is answered 500
with the generic failure after the one call of `createTransporter`, which
throws; `sendMail` is not called and the response is not ok. -/
theorem valid_submission_answered_500 :
    serverAccepts validContactData = true ∧
    contactHandler sampleEnv throwingMailer (some validContactData) =
      ⟨⟨500, ResponseBody.error
          "Failed to send message. Please try again or contact me directly."⟩,
        [Event.createTransporter (transportOptions sampleEnv),
         Event.consoleError "Contact form error:"
           ⟨"TypeError", "nodemailer.createTransporter is not a function"⟩]⟩ ∧
    mailsSent (contactHandler sampleEnv throwingMailer (some validContactData)).trace = [] ∧
    (contactHandler sampleEnv throwingMailer (some validContactData)).response.ok = false :=
  ⟨by decide, rfl, rfl, by decide⟩

/-- With the published package every submission that passes validation is
answered 500. -/
theorem accepted_submission_answered_500 (env : ProcessEnv)
    (name email subject message : JSString)
    (hv : serverAccepts ⟨some name, some email, some subject, some message⟩ = true) :
    contactHandler env throwingMailer
        (some ⟨some name, some email, some subject, some message⟩) =
      ⟨failureResponse,
        [Event.createTransporter (transportOptions env),
         Event.consoleError "Contact form error:"
           ⟨"TypeError", "nodemailer.createTransporter is not a function"⟩]⟩ :=
  contactHandler_create_throws env throwingMailer name email subject message _ hv rfl

/-! ## The burst at a window boundary, windows opened by requests -/

theorem contactHandler_status (env : ProcessEnv) (nodemailer : Nodemailer)
    (body : Option ContactBody) :
    (contactHandler env nodemailer body).response.status ≠ 429 := by
  cases body with
  | none =>
    intro h
    simp [contactHandler, contactTry, failureResponse] at h
  | some b =>
    cases hv : serverAccepts b with
    | false =>
      obtain ⟨msg, hmsg⟩ := firstFailure_of_not_accepts b hv
      rw [contactHandler_of_firstFailure env nodemailer b msg hmsg]
      intro h
      simp at h
    | true =>
      rcases contactHandler_accepted_status env nodemailer b hv with h | h <;> rw [h] <;> decide

/-- The requests the server answers from the handler are those the limiter
lets through. -/
theorem handledCount_serve (opensAt : Nat → Nat) (env : ProcessEnv) (p : Arrival → Bool) :
    ∀ (arrivals : List Arrival) (table : RateLimitTable),
      handledCount p arrivals (serve opensAt env table arrivals) =
        admittedCount opensAt p table arrivals := by
  intro arrivals
  induction arrivals with
  | nil => intro _; rfl
  | cons a rest ih =>
    intro table
    rw [serve_cons, admittedCount_cons]
    simp only [handledCount]
    rw [ih]
    simp only [contactRoute]
    by_cases hadm : (rateLimit contactLimiterOptions opensAt table a.ip a.now).2 = true
    · have := contactHandler_status env a.nodemailer a.body
      simp [hadm, this]
    · have hadm' : (rateLimit contactLimiterOptions opensAt table a.ip a.now).2 = false := by
        simpa using hadm
      have h429 : tooManyRequests.response.status = 429 := rfl
      simp only [hadm', Bool.false_eq_true, if_false, Bool.and_false, h429, bne_self_eq_false]

theorem rateLimit_counted (opensAt : Nat → Nat) (table : RateLimitTable) (identifier : String)
    (now : Nat) :
    CountedOpener (rateLimit contactLimiterOptions opensAt table identifier now).1 identifier := by
  intro w hw
  have h := rateLimit_count contactLimiterOptions opensAt table identifier now
  rw [hw] at h
  simp only [Option.map_some', Option.some.injEq] at h
  omega

theorem inSpan_of_ip (identifier : String) (lo hi : Nat) (a : Arrival) (h : a.ip = identifier) :
    inSpan identifier lo hi a = (decide (lo ≤ a.now) && decide (a.now ≤ hi)) := by
  simp only [inSpan, h, decide_True, Bool.true_and]

theorem inSpan_other (identifier : String) (lo hi : Nat) (a : Arrival) (h : a.ip ≠ identifier) :
    inSpan identifier lo hi a = false := by
  simp [inSpan, h]

theorem spanBudget_entry (table : RateLimitTable) (identifier : String) (lo c ws : Nat)
    (h : table identifier = some ⟨c, ws⟩) :
    spanBudget table identifier lo = if lo ≤ ws then 5 - min c 5 else 5 - min c 5 + 5 := by
  simp only [spanBudget, h]

theorem spanBudget_none (table : RateLimitTable) (identifier : String) (lo : Nat)
    (h : table identifier = none) : spanBudget table identifier lo = 5 := by
  simp only [spanBudget, h]

/-- One step of the count of a span for a request of the identifier, by the
entry the limiter writes. -/
theorem admittedCount_span_step (lo hi : Nat) (a : Arrival) (rest : List Arrival)
    (table : RateLimitTable) (c ws : Nat)
    (ht : (rateLimit contactLimiterOptions opensAtRequest table a.ip a.now).1 a.ip =
      some ⟨c, ws⟩)
    (hadm : (rateLimit contactLimiterOptions opensAtRequest table a.ip a.now).2 =
      decide (c ≤ contactLimiterOptions.max))
    (hih : admittedCount opensAtRequest (inSpan a.ip lo hi)
        (rateLimit contactLimiterOptions opensAtRequest table a.ip a.now).1 rest ≤
      spanBudget (rateLimit contactLimiterOptions opensAtRequest table a.ip a.now).1 a.ip lo) :
    ∃ n, admittedCount opensAtRequest (inSpan a.ip lo hi) table (a :: rest) =
        (if (lo ≤ a.now ∧ a.now ≤ hi) ∧ c ≤ 5 then 1 else 0) + n ∧
      n ≤ if lo ≤ ws then 5 - min c 5 else 5 - min c 5 + 5 := by
  refine ⟨admittedCount opensAtRequest (inSpan a.ip lo hi)
    (rateLimit contactLimiterOptions opensAtRequest table a.ip a.now).1 rest, ?_, ?_⟩
  · rw [admittedCount_cons, inSpan_of_ip a.ip lo hi a rfl, hadm]
    have h5 : contactLimiterOptions.max = 5 := rfl
    rw [h5]
    by_cases h1 : lo ≤ a.now <;> by_cases h2 : a.now ≤ hi <;> by_cases h3 : c ≤ 5 <;>
      simp [h1, h2, h3]
  · rw [spanBudget_entry _ a.ip lo c ws ht] at hih
    exact hih

/-- With windows opened by requests: from time `lo` on, the requests of the
identifier that the limiter lets through within a span shorter than a window
are bounded by the budget of the identifier's entry. -/
theorem admittedCount_span_budget (identifier : String) (lo hi : Nat)
    (hspan : hi < lo + contactLimiterOptions.windowMs) :
    ∀ (arrivals : List Arrival) (table : RateLimitTable),
      (∀ a ∈ arrivals, lo ≤ a.now) →
      List.Pairwise (fun a b : Arrival => a.now ≤ b.now) arrivals →
      admittedCount opensAtRequest (inSpan identifier lo hi) table arrivals ≤
        spanBudget table identifier lo := by
  have hW : contactLimiterOptions.windowMs = 900000 := rfl
  rw [hW] at hspan
  intro arrivals
  induction arrivals with
  | nil => intro table _ _; exact Nat.zero_le _
  | cons a rest ih =>
    intro table hlo hsorted
    have hat : lo ≤ a.now := hlo a (List.mem_cons_self _ _)
    have hrest_ge : ∀ b ∈ rest, a.now ≤ b.now := (List.pairwise_cons.mp hsorted).1
    have hsorted' := (List.pairwise_cons.mp hsorted).2
    have hlo' : ∀ b ∈ rest, lo ≤ b.now := fun b hb => hlo b (List.mem_cons_of_mem _ hb)
    by_cases hip : a.ip = identifier
    · subst hip
      have hih := ih (rateLimit contactLimiterOptions opensAtRequest table a.ip a.now).1
        hlo' hsorted'
      cases hent : table a.ip with
      | none =>
        have hfresh : NoRunningWindow contactLimiterOptions table a.ip a.now := by
          intro w hw; rw [hent] at hw; cases hw
        obtain ⟨ht', hadm⟩ := rateLimit_fresh contactLimiterOptions opensAtRequest table
          a.ip a.now hfresh
        obtain ⟨n, hn, hbound⟩ := admittedCount_span_step lo hi a rest table 1 _ ht' hadm hih
        rw [hn, spanBudget_none table a.ip lo hent]
        simp only [opensAtRequest] at hbound
        split_ifs at hbound ⊢ <;> omega
      | some w =>
        obtain ⟨c, ws⟩ := w
        rw [spanBudget_entry table a.ip lo c ws hent]
        by_cases hlive : a.now < ws + contactLimiterOptions.windowMs
        · obtain ⟨ht', hadm⟩ := rateLimit_running contactLimiterOptions opensAtRequest table
            a.ip a.now c ws hent hlive
          obtain ⟨n, hn, hbound⟩ := admittedCount_span_step lo hi a rest table (c + 1) ws
            ht' hadm hih
          rw [hn]
          split_ifs at hbound ⊢ <;> omega
        · have hfresh : NoRunningWindow contactLimiterOptions table a.ip a.now := by
            intro w hw
            rw [hent] at hw
            cases hw
            exact Nat.not_lt.mp hlive
          obtain ⟨ht', hadm⟩ := rateLimit_fresh contactLimiterOptions opensAtRequest table
            a.ip a.now hfresh
          rw [hW] at hlive
          by_cases hws : lo ≤ ws
          · have hnone : admittedCount opensAtRequest (inSpan a.ip lo hi) table (a :: rest) =
                0 := by
              apply admittedCount_none
              intro b hb
              have hb' : a.now ≤ b.now := by
                rcases List.mem_cons.mp hb with rfl | hb
                · exact Nat.le_refl _
                · exact hrest_ge b hb
              simp only [inSpan, Bool.and_eq_false_imp, Bool.and_eq_true, decide_eq_true_eq,
                decide_eq_false_iff_not]
              intro _
              omega
            rw [hnone]
            exact Nat.zero_le _
          · obtain ⟨n, hn, hbound⟩ := admittedCount_span_step lo hi a rest table 1 _ ht' hadm
              hih
            rw [hn]
            simp only [opensAtRequest] at hbound
            split_ifs at hbound ⊢ <;> omega
    · have hsame : (rateLimit contactLimiterOptions opensAtRequest table a.ip a.now).1
          identifier = table identifier :=
        rateLimit_other _ _ _ _ _ _ (Ne.symm hip)
      have hih := ih (rateLimit contactLimiterOptions opensAtRequest table a.ip a.now).1
        hlo' hsorted'
      have hb : spanBudget (rateLimit contactLimiterOptions opensAtRequest table a.ip a.now).1
          identifier lo = spanBudget table identifier lo := by
        simp only [spanBudget, hsame]
      rw [hb] at hih
      rw [admittedCount_cons, inSpan_other identifier lo hi a hip]
      simp only [Bool.false_and, Bool.false_eq_true, if_false, Nat.zero_add]
      exact hih

theorem spanBudget_le_nine (table : RateLimitTable) (identifier : String) (lo : Nat)
    (h : CountedOpener table identifier) : spanBudget table identifier lo ≤ 9 := by
  cases hent : table identifier with
  | none => rw [spanBudget_none table identifier lo hent]; decide
  | some w =>
    obtain ⟨c, ws⟩ := w
    have := h ⟨c, ws⟩ hent
    simp only at this
    rw [spanBudget_entry table identifier lo c ws hent]
    split_ifs <;> omega

/-- With windows opened by requests, at most nine requests of one identifier
pass the limiter within a span of time shorter than 15 minutes. -/
theorem admittedCount_span_le_nine (identifier : String) (lo hi : Nat)
    (hspan : hi < lo + contactLimiterOptions.windowMs) :
    ∀ (arrivals : List Arrival) (table : RateLimitTable),
      CountedOpener table identifier →
      List.Pairwise (fun a b : Arrival => a.now ≤ b.now) arrivals →
      admittedCount opensAtRequest (inSpan identifier lo hi) table arrivals ≤ 9 := by
  intro arrivals
  induction arrivals with
  | nil => intro table _ _; exact Nat.zero_le _
  | cons a rest ih =>
    intro table hcount hsorted
    have hrest_ge : ∀ b ∈ rest, a.now ≤ b.now := (List.pairwise_cons.mp hsorted).1
    have hsorted' := (List.pairwise_cons.mp hsorted).2
    by_cases hlo : lo ≤ a.now
    · have hall : ∀ b ∈ a :: rest, lo ≤ b.now := by
        intro b hb
        rcases List.mem_cons.mp hb with rfl | hb
        · exact hlo
        · exact Nat.le_trans hlo (hrest_ge b hb)
      exact Nat.le_trans
        (admittedCount_span_budget identifier lo hi hspan (a :: rest) table hall hsorted)
        (spanBudget_le_nine table identifier lo hcount)
    · have hpa : inSpan identifier lo hi a = false := by
        simp only [inSpan, Bool.and_eq_false_imp, Bool.and_eq_true, decide_eq_true_eq,
          decide_eq_false_iff_not]
        intro h
        exact absurd h.2 hlo
      have hcount' : CountedOpener
          (rateLimit contactLimiterOptions opensAtRequest table a.ip a.now).1 identifier := by
        by_cases hip : a.ip = identifier
        · subst hip
          exact rateLimit_counted opensAtRequest table a.ip a.now
        · intro w hw
          rw [rateLimit_other _ _ _ _ _ _ (Ne.symm hip)] at hw
          exact hcount w hw
      rw [admittedCount_cons, hpa]
      simp only [Bool.false_and, Bool.false_eq_true, if_false, Nat.zero_add]
      exact ih _ hcount' hsorted'

/-- The schedule of five requests just before the end of a window of 15
minutes and five just after gets fewer than ten through: on a fresh server
the first of the ten opens the window, which then holds all ten, and five
pass; when the window was opened 15 minutes before by an earlier request,
that request has used one of its five places, and nine of the ten pass. -/
theorem ten_in_short_span_counterexample :
    (serve opensAtRequest sampleEnv emptyTable burstOnFreshServer).map
        (fun o => o.response.status) =
      [500, 500, 500, 500, 500, 429, 429, 429, 429, 429] ∧
    handledCount (inSpan "203.0.113.7" 899999 900000) burstOnFreshServer
      (serve opensAtRequest sampleEnv emptyTable burstOnFreshServer) = 5 ∧
    (serve opensAtRequest sampleEnv emptyTable burstAfterOpener).map
        (fun o => o.response.status) =
      [500, 500, 500, 500, 500, 429, 500, 500, 500, 500, 500] ∧
    handledCount (inSpan "203.0.113.7" 899999 900000) burstAfterOpener
      (serve opensAtRequest sampleEnv emptyTable burstAfterOpener) = 9 := by
  decide

/-- Claim C14, amended: the limiter's windows are fixed, not sliding, and a
window is opened by the identifier's first request after the previous window
has elapsed, that request being counted.  From the start of the server the
largest number of requests of one identifier that the server answers from the
handler within a span of time shorter than 15 minutes is 9: after a request
at time 0, four of the five requests in the last millisecond of its window
and the five in the millisecond after it pass, and no schedule, of requests
in the order of their times, gets more than nine through within such a
span. -/
theorem burst_of_nine_at_window_boundary (env : ProcessEnv) :
    (handledCount (inSpan "203.0.113.7" 899999 900000) burstAfterOpener
        (serve opensAtRequest env emptyTable burstAfterOpener) = 9 ∧
      900000 < 899999 + contactLimiterOptions.windowMs ∧
      List.Pairwise (fun a b : Arrival => a.now ≤ b.now) burstAfterOpener) ∧
    (∀ (identifier : String) (lo hi : Nat) (arrivals : List Arrival),
      List.Pairwise (fun a b : Arrival => a.now ≤ b.now) arrivals →
      hi < lo + contactLimiterOptions.windowMs →
      handledCount (inSpan identifier lo hi) arrivals
        (serve opensAtRequest env emptyTable arrivals) ≤ 9) ∧
    contactLimiterOptions.windowMs = 15 * 60 * 1000 ∧ contactLimiterOptions.max = 5 := by
  refine ⟨⟨?_, by decide, by decide⟩, ?_, rfl, rfl⟩
  · rw [handledCount_serve]
    decide
  · intro identifier lo hi arrivals hsorted hspan
    rw [handledCount_serve]
    apply admittedCount_span_le_nine identifier lo hi hspan arrivals emptyTable _ hsorted
    intro w hw
    simp [emptyTable] at hw

/-- Thirteen requests of one client, one at time 0 and six on either side of
the end of its window: at most nine are answered from the handler within the
two milliseconds. -/
theorem burst_of_nine_at_window_boundary_witness :
    handledCount (inSpan "203.0.113.7" 899999 900000)
        (postAt "203.0.113.7" validContactData 0 ::
          (List.replicate 6 (postAt "203.0.113.7" validContactData 899999) ++
            List.replicate 6 (postAt "203.0.113.7" validContactData 900000)))
        (serve opensAtRequest sampleEnv emptyTable
          (postAt "203.0.113.7" validContactData 0 ::
            (List.replicate 6 (postAt "203.0.113.7" validContactData 899999) ++
              List.replicate 6 (postAt "203.0.113.7" validContactData 900000)))) ≤ 9 :=
  (burst_of_nine_at_window_boundary sampleEnv).2.1 "203.0.113.7" 899999 900000
    (postAt "203.0.113.7" validContactData 0 ::
      (List.replicate 6 (postAt "203.0.113.7" validContactData 899999) ++
        List.replicate 6 (postAt "203.0.113.7" validContactData 900000)))
    (by decide) (by decide)

/-! ## Bodies of any JSON type -/

theorem mailOptionsJson_strings (env : ProcessEnv) (name email subject message : JSString) :
    mailOptionsJson env
        ⟨JSValue.string name, JSValue.string email, JSValue.string subject,
          JSValue.string message⟩ =
      Except.ok (mailOptions env name email subject message).toJson := rfl

theorem userMailOptionsJson_strings (env : ProcessEnv)
    (name email subject message : JSString) :
    userMailOptionsJson env
        ⟨JSValue.string name, JSValue.string email, JSValue.string subject,
          JSValue.string message⟩ =
      Except.ok (userMailOptions env name email subject message).toJson := rfl

/-- On a body whose fields are strings or absent the `try` block on JSON
bodies does what the `try` block on such bodies does. -/
theorem contactTryJson_strings (env : ProcessEnv) (nodemailer : JsonNodemailer)
    (b : ContactBody) :
    contactTryJson env nodemailer b.toJson =
      ((contactTry env nodemailer.narrow (some b)).1.map Event.toJson,
        (contactTry env nodemailer.narrow (some b)).2) := by
  rcases b with ⟨_ | name, _ | email, _ | subject, _ | message⟩
  case mk.some.some.some.some =>
    simp only [contactTryJson, contactTry, ContactBody.toJson, JSValue.ofOption, JSValue.falsy,
      JSValue.lengthBelow, JSValue.toStr]
    by_cases h1 : (name.isEmpty || email.isEmpty || subject.isEmpty || message.isEmpty) = true
    · simp only [h1, if_true]
      rfl
    · simp only [h1, if_false]
      by_cases h2 : name.length < 2
      · simp only [h2, decide_True, if_true]
        rfl
      · simp only [h2, decide_False, if_false]
        by_cases h3 : subject.length < 5
        · simp only [h3, decide_True, if_true]
          rfl
        · simp only [h3, decide_False, if_false]
          by_cases h4 : message.length < 10
          · simp only [h4, decide_True, if_true]
            rfl
          · simp only [h4, decide_False, if_false]
            by_cases h5 : (!regexTest emailRegex email) = true
            · simp only [h5, if_true]
              rfl
            · simp only [h5, if_false]
              simp only [createTransporter, JsonNodemailer.narrow]
              cases nodemailer.createTransporter (transportOptions env) with
              | error e => rfl
              | ok t =>
                simp only [mailOptionsJson_strings, userMailOptionsJson_strings]
                cases t.sendMail 0 (mailOptions env name email subject message).toJson with
                | error e => rfl
                | ok u =>
                  simp only
                  cases t.sendMail 1
                      (userMailOptions env name email subject message).toJson with
                  | error e => rfl
                  | ok u => rfl
  all_goals
    simp [contactTryJson, contactTry, ContactBody.toJson, JSValue.ofOption, JSValue.falsy,
      badRequestJson, badRequest]

/-- On a body whose fields are strings or absent the handler on JSON bodies
does what the handler on such bodies does. -/
theorem contactHandlerJson_strings (env : ProcessEnv) (nodemailer : JsonNodemailer)
    (b : ContactBody) :
    contactHandlerJson env nodemailer b.toJson =
      ⟨(contactHandler env nodemailer.narrow (some b)).response,
        (contactHandler env nodemailer.narrow (some b)).trace.map Event.toJson⟩ := by
  unfold contactHandlerJson contactHandler
  rw [contactTryJson_strings]
  rcases contactTry env nodemailer.narrow (some b) with ⟨trace, r | e⟩
  · simp only [List.map_append, List.map_cons, List.map_nil]
    rfl
  · rfl

/-- A body with the number 7 for the name and the other fields too short: all
four fields are present and non-empty and the name is no string of two
characters, yet the handler answers with the message of the subject rule, not
of the name rule, because `name.length` is `undefined` and `undefined < 2` is
false. -/
theorem first_failure_any_body_counterexample :
    numberNameShortData.name.falsy = false ∧ numberNameShortData.email.falsy = false ∧
    numberNameShortData.subject.falsy = false ∧ numberNameShortData.message.falsy = false ∧
    numberNameShortData.name.hasLength 2 = false ∧
    numberNameShortData.name.lengthBelow 2 = Except.ok false ∧
    (contactHandlerJson sampleEnv throwingMailerJson numberNameShortData).response =
      ⟨400, ResponseBody.error "Subject must be at least 5 characters long"⟩ ∧
    (contactHandlerJson sampleEnv throwingMailerJson numberNameShortData).response ≠
      ⟨400, ResponseBody.error "Name must be at least 2 characters long"⟩ :=
  ⟨rfl, rfl, rfl, rfl, rfl, rfl, by decide, by decide⟩

/-- Claim C1, amended: for every request body whose four fields are each a
string or absent, the handler checks the five rules in the order presence,
name length, subject length, message length, email shape, and answers 400
with the message of the first rule the body violates, performing no other
effect. -/
theorem first_failure_wins_on_string_fields (env : ProcessEnv) (nodemailer : JsonNodemailer)
    (b : ContactBody) (msg : String) (h : firstFailure specRules b = some msg) :
    contactHandlerJson env nodemailer b.toJson = ⟨⟨400, ResponseBody.error msg⟩, []⟩ ∧
      List.map Prod.snd specRules =
        ["All fields are required", "Name must be at least 2 characters long",
         "Subject must be at least 5 characters long",
         "Message must be at least 10 characters long",
         "Please enter a valid email address"] := by
  refine ⟨?_, rfl⟩
  rw [contactHandlerJson_strings, contactHandler_of_firstFailure env _ b msg h]
  rfl

/-- The submission of the backend test whose fields are all present and all
too short gets the message of the name rule. -/
theorem first_failure_wins_on_string_fields_witness :
    firstFailure specRules invalidContactData =
        some "Name must be at least 2 characters long" ∧
      contactHandlerJson sampleEnv throwingMailerJson invalidContactData.toJson =
        ⟨⟨400, ResponseBody.error "Name must be at least 2 characters long"⟩, []⟩ :=
  ⟨by decide,
   (first_failure_wins_on_string_fields sampleEnv throwingMailerJson invalidContactData
      "Name must be at least 2 characters long" (by decide)).1⟩

/-- The valid submission of the backend test with the number 7 for the name:
the name is no string of two characters, yet the handler does not answer 400
and goes on to dispatch: with the published mail package it calls
`createTransporter` and answers 500, and with a package that provides the
factory it calls `sendMail` twice and answers 200. -/
theorem invalid_dispatched_counterexample :
    numberNameData.name.hasLength 2 = false ∧
    (contactHandlerJson sampleEnv throwingMailerJson numberNameData).response.status = 500 ∧
    calledCreateTransporter
      (contactHandlerJson sampleEnv throwingMailerJson numberNameData).trace = true ∧
    (contactHandlerJson sampleEnv workingMailerJson numberNameData).response.status = 200 ∧
    (mailsSentJson (contactHandlerJson sampleEnv workingMailerJson numberNameData).trace).length =
      2 :=
  ⟨rfl, by decide, by decide, by decide, by decide⟩

/-- Whenever `sendMail` is called in a run on a body of any JSON type, the
body has passed every test of the handler: no field is falsy, the tests
`name.length < 2` and `subject.length < 5` are false, the message is a string
of at least 10 characters, and `String(email)` matches the email pattern. -/
theorem sendMail_called_json (env : ProcessEnv) (nodemailer : JsonNodemailer) (b : JsonBody)
    (hsent : mailsSentJson (contactHandlerJson env nodemailer b).trace ≠ []) :
    (b.name.falsy = false ∧ b.email.falsy = false ∧ b.subject.falsy = false ∧
      b.message.falsy = false) ∧
    b.name.lengthBelow 2 = Except.ok false ∧ b.subject.lengthBelow 5 = Except.ok false ∧
    (∃ message, b.message = JSValue.string message ∧ 10 ≤ message.length) ∧
    (∃ text, b.email.toStr = Except.ok text ∧ isValidEmail text = true) := by
  unfold contactHandlerJson contactTryJson at hsent
  by_cases hf : (b.name.falsy || b.email.falsy || b.subject.falsy || b.message.falsy) = true
  · simp [hf, badRequestJson, mailsSentJson] at hsent
  simp only [hf, Bool.false_eq_true, if_false] at hsent
  have hf4 : b.name.falsy = false ∧ b.email.falsy = false ∧ b.subject.falsy = false ∧
      b.message.falsy = false := by
    simp only [Bool.or_eq_true, not_or, Bool.not_eq_true] at hf
    exact ⟨hf.1.1.1, hf.1.1.2, hf.1.2, hf.2⟩
  cases hn : b.name.lengthBelow 2 with
  | error e => simp [hn, mailsSentJson] at hsent
  | ok bn =>
  cases bn with
  | true => simp [hn, badRequestJson, mailsSentJson] at hsent
  | false =>
  cases hs : b.subject.lengthBelow 5 with
  | error e => simp [hn, hs, mailsSentJson] at hsent
  | ok bs =>
  cases bs with
  | true => simp [hn, hs, badRequestJson, mailsSentJson] at hsent
  | false =>
  cases hm : b.message.lengthBelow 10 with
  | error e => simp [hn, hs, hm, mailsSentJson] at hsent
  | ok bm =>
  cases bm with
  | true => simp [hn, hs, hm, badRequestJson, mailsSentJson] at hsent
  | false =>
  cases he : b.email.toStr with
  | error e => simp [hn, hs, hm, he, mailsSentJson] at hsent
  | ok text =>
  by_cases hre : regexTest emailRegex text = true
  swap
  · simp [hn, hs, hm, he, hre, badRequestJson, mailsSentJson] at hsent
  cases hc : nodemailer.createTransporter (transportOptions env) with
  | error e => simp [hn, hs, hm, he, hre, hc, mailsSentJson] at hsent
  | ok transporter =>
  cases hmo : mailOptionsJson env b with
  | error e => simp [hn, hs, hm, he, hre, hc, hmo, mailsSentJson] at hsent
  | ok mail =>
  refine ⟨hf4, rfl, rfl, ?_, text, rfl, hre⟩
  cases hmsg : b.message with
  | string message =>
    refine ⟨message, rfl, ?_⟩
    rw [hmsg] at hm
    simp [JSValue.lengthBelow] at hm
    exact hm
  | undefined => simp [mailOptionsJson, he, hmsg] at hmo; revert hmo; cases b.subject.toStr <;> cases b.name.toStr <;> simp
  | null => simp [mailOptionsJson, he, hmsg] at hmo; revert hmo; cases b.subject.toStr <;> cases b.name.toStr <;> simp
  | boolean v => simp [mailOptionsJson, he, hmsg] at hmo; revert hmo; cases b.subject.toStr <;> cases b.name.toStr <;> simp
  | number v => simp [mailOptionsJson, he, hmsg] at hmo; revert hmo; cases b.subject.toStr <;> cases b.name.toStr <;> simp
  | array n v => simp [mailOptionsJson, he, hmsg] at hmo; revert hmo; cases b.subject.toStr <;> cases b.name.toStr <;> simp
  | object f v => simp [mailOptionsJson, he, hmsg] at hmo; revert hmo; cases b.subject.toStr <;> cases b.name.toStr <;> simp

/-- Claim C2, amended: for every submission whose four fields are each a
string or absent and that misses a field, or has a name shorter than 2, a
subject shorter than 5 or a message shorter than 10, or whose email has no
`@` or no `.`, the handler answers 400 with a validation error and calls
neither `createTransporter` nor `sendMail`; whenever `sendMail` is called on
such a body its four fields are strings of the required lengths and the email
has the required shape; and on a body of any JSON type, whenever `sendMail` is
called no field is falsy, the tests `name.length < 2` and `subject.length < 5`
are false, the message is a string of at least 10 characters and
`String(email)` has the required shape. -/
theorem invalid_string_submission_not_dispatched (env : ProcessEnv)
    (nodemailer : JsonNodemailer) (b : ContactBody) :
    (Rejectable b →
      ∃ msg, contactHandlerJson env nodemailer b.toJson = ⟨⟨400, ResponseBody.error msg⟩, []⟩) ∧
    (mailsSentJson (contactHandlerJson env nodemailer b.toJson).trace ≠ [] →
      ∃ name email subject message,
        b = ⟨some name, some email, some subject, some message⟩ ∧
        2 ≤ name.length ∧ 5 ≤ subject.length ∧ 10 ≤ message.length ∧
        isValidEmail email = true) ∧
    (∀ jb : JsonBody, mailsSentJson (contactHandlerJson env nodemailer jb).trace ≠ [] →
      (jb.name.falsy = false ∧ jb.email.falsy = false ∧ jb.subject.falsy = false ∧
        jb.message.falsy = false) ∧
      jb.name.lengthBelow 2 = Except.ok false ∧ jb.subject.lengthBelow 5 = Except.ok false ∧
      (∃ message, jb.message = JSValue.string message ∧ 10 ≤ message.length) ∧
      (∃ text, jb.email.toStr = Except.ok text ∧ isValidEmail text = true)) := by
  refine ⟨?_, ?_, fun jb h => sendMail_called_json env nodemailer jb h⟩
  · intro h
    obtain ⟨msg, hmsg⟩ := firstFailure_of_not_accepts b (not_accepts_of_rejectable b h)
    refine ⟨msg, ?_⟩
    rw [contactHandlerJson_strings, contactHandler_of_firstFailure env _ b msg hmsg]
    rfl
  · intro hsent
    cases hv : serverAccepts b with
    | false =>
      obtain ⟨msg, hmsg⟩ := firstFailure_of_not_accepts b hv
      rw [contactHandlerJson_strings, contactHandler_of_firstFailure env _ b msg hmsg] at hsent
      exact absurd rfl hsent
    | true =>
      obtain ⟨name, email, subject, message, rfl⟩ := serverAccepts_fields b hv
      exact ⟨name, email, subject, message, rfl,
        (serverAccepts_strings name email subject message).mp hv⟩

/-- The too-short submission of the backend test is rejected without
dispatch. -/
theorem invalid_string_submission_not_dispatched_witness :
    Rejectable invalidContactData ∧
      ∃ msg, contactHandlerJson sampleEnv workingMailerJson invalidContactData.toJson =
        ⟨⟨400, ResponseBody.error msg⟩, []⟩ :=
  have h : Rejectable invalidContactData := Or.inr (Or.inr (Or.inr (Or.inr (Or.inl (by decide)))))
  ⟨h, (invalid_string_submission_not_dispatched sampleEnv workingMailerJson
    invalidContactData).1 h⟩

end Portfolio
